import Mathlib

/-! # SteamBridge: forwarding wrappers over the platform SDK

A verification development for the two wrapper classes of the plugin,
`USteamGameServer` (Source/SteamBridge/Public/Core/SteamGameServer.h) and
`USteamUser` (Source/SteamBridge/Public/Core/SteamUser.h).

Every inline method of the two classes is embedded as a small program that
talks to the SDK: a program either returns a value or invokes one SDK entry
point with marshalled arguments and continues with whatever the SDK answered.
The SDK itself is closed; it appears as an arbitrary responder with a private
state. Running a program against a responder yields the wrapper's result, the
responder's final state and the list of SDK invocations made, in order.

Machine integers are `Nat` (unsigned) and `Int` (signed); every C++ conversion
that changes width or signedness is an explicit reduction modulo a power of two.

The delegate declarations, the delegate members and the callback declarations of
the two classes are embedded as data, one record per source line.
-/

namespace SteamBridge

/-! ## Integer conversions of the C++ language -/

/-- Implicit or explicit conversion of an integer value to `uint8`. -/
def toUInt8 (z : Int) : Nat := (z % 256).toNat

/-- Implicit or explicit conversion of an integer value to `uint16`. -/
def toUInt16 (z : Int) : Nat := (z % 65536).toNat

/-- Implicit or explicit conversion of an integer value to `uint32`. -/
def toUInt32 (z : Int) : Nat := (z % 4294967296).toNat

/-- Conversion of an integer value to `int32` (two's complement, as on every
platform the engine supports); also the value read through an `int32` lvalue
from storage that holds the given 32-bit pattern. -/
def toInt32 (z : Int) : Int :=
  if z % 4294967296 < 2147483648 then z % 4294967296 else z % 4294967296 - 4294967296

/-- Range of the `int32` type. -/
def isInt32 (z : Int) : Prop := -2147483648 ≤ z ∧ z ≤ 2147483647

instance (z : Int) : Decidable (isInt32 z) := by unfold isInt32; infer_instance

/-! ## Engine helpers used by the wrappers -/

/-- Modelled from the spec: the engine template `FMath::Clamp<T>(X, Min, Max)`
(UnrealMathUtility.h) is not among the sources. Its body is
`X < Min ? Min : X < Max ? X : Max`, on values of type `T`. -/
def FMath.Clamp (X Min Max : Nat) : Nat :=
  if X < Min then Min else if X < Max then X else Max

/-- The instantiation `FMath::Clamp<uint16>`: the explicit template argument
makes all three parameters `const uint16`, so each argument is converted to
`uint16` before the body runs. -/
def FMath.Clamp_uint16 (X Min Max : Int) : Nat :=
  FMath.Clamp (toUInt16 X) (toUInt16 Min) (toUInt16 Max)

/-! ## SDK value types -/

/-- Modelled from the spec: the SDK headers are not among the sources. SDK class
`CSteamID` is the opaque 64-bit account/entity identifier, held in
`m_steamid.m_unAll64Bits`. -/
structure CSteamID where
  m_unAll64Bits : Nat
deriving DecidableEq, Repr

/-- SDK constructor `CSteamID(uint64 ulSteamID)`, the implicit conversion applied
when a wrapper passes a `uint64` where the SDK expects a `CSteamID`. -/
def CSteamID.ofUint64 (ulSteamID : Nat) : CSteamID := ⟨ulSteamID⟩

/-- SDK accessor `CSteamID::ConvertToUint64()`. -/
def CSteamID.ConvertToUint64 (id : CSteamID) : Nat := id.m_unAll64Bits

/-- Modelled from the spec: the SDK headers are not among the sources. SDK
enumeration `EBeginAuthSessionResult`, as in the vendor's API reference. -/
inductive EBeginAuthSessionResult
  | k_EBeginAuthSessionResultOK
  | k_EBeginAuthSessionResultInvalidTicket
  | k_EBeginAuthSessionResultDuplicateRequest
  | k_EBeginAuthSessionResultInvalidVersion
  | k_EBeginAuthSessionResultGameMismatch
  | k_EBeginAuthSessionResultExpiredTicket
deriving DecidableEq, Repr

/-- Numeric values of `EBeginAuthSessionResult`. -/
def EBeginAuthSessionResult.toInt : EBeginAuthSessionResult → Int
  | k_EBeginAuthSessionResultOK => 0
  | k_EBeginAuthSessionResultInvalidTicket => 1
  | k_EBeginAuthSessionResultDuplicateRequest => 2
  | k_EBeginAuthSessionResultInvalidVersion => 3
  | k_EBeginAuthSessionResultGameMismatch => 4
  | k_EBeginAuthSessionResultExpiredTicket => 5

/-- Modelled from the spec: the SDK headers are not among the sources. SDK
enumeration `EUserHasLicenseForAppResult`, as in the vendor's API reference. -/
inductive EUserHasLicenseForAppResult
  | k_EUserHasLicenseResultHasLicense
  | k_EUserHasLicenseResultDoesNotHaveLicense
  | k_EUserHasLicenseResultNoAuth
deriving DecidableEq, Repr

/-- Numeric values of `EUserHasLicenseForAppResult`. -/
def EUserHasLicenseForAppResult.toInt : EUserHasLicenseForAppResult → Int
  | k_EUserHasLicenseResultHasLicense => 0
  | k_EUserHasLicenseResultDoesNotHaveLicense => 1
  | k_EUserHasLicenseResultNoAuth => 2

/-- Modelled from the spec: the SDK headers are not among the sources. SDK
enumeration `EVoiceResult`, as in the vendor's API reference. -/
inductive EVoiceResult
  | k_EVoiceResultOK
  | k_EVoiceResultNotInitialized
  | k_EVoiceResultNotRecording
  | k_EVoiceResultNoData
  | k_EVoiceResultBufferTooSmall
  | k_EVoiceResultDataCorrupted
  | k_EVoiceResultRestricted
  | k_EVoiceResultUnsupportedCodec
  | k_EVoiceResultReceiverOutOfDate
  | k_EVoiceResultReceiverDidNotAnswer
deriving DecidableEq, Repr

/-- Numeric values of `EVoiceResult`. -/
def EVoiceResult.toInt : EVoiceResult → Int
  | k_EVoiceResultOK => 0
  | k_EVoiceResultNotInitialized => 1
  | k_EVoiceResultNotRecording => 2
  | k_EVoiceResultNoData => 3
  | k_EVoiceResultBufferTooSmall => 4
  | k_EVoiceResultDataCorrupted => 5
  | k_EVoiceResultRestricted => 6
  | k_EVoiceResultUnsupportedCodec => 7
  | k_EVoiceResultReceiverOutOfDate => 8
  | k_EVoiceResultReceiverDidNotAnswer => 9

/-! ## Plugin value types (SteamStructs.h, SteamEnums.h) -/

/-- Modelled from the spec: SteamStructs.h is not among the sources. `FSteamID`
is the engine-side carrier of the opaque 64-bit account/entity identifier; the
wrappers read its field `Value` and build it implicitly from a `uint64`, and the
spec says the wrapper "only converts [the] bit representation at the call
boundary". -/
structure FSteamID where
  Value : Nat
deriving DecidableEq, Repr

/-- Modelled from the spec: SteamStructs.h is not among the sources. `FHAuthTicket`
carries the opaque 32-bit authentication-ticket handle in its field `Value`. -/
structure FHAuthTicket where
  Value : Nat
deriving DecidableEq, Repr

/-- Modelled from the spec: SteamStructs.h is not among the sources. Implicit
conversion of an `FHAuthTicket` to the SDK's `HAuthTicket` (`uint32`), a change
of representation only. -/
def FHAuthTicket.toHAuthTicket (h : FHAuthTicket) : Nat := h.Value

/-- Modelled from the spec: SteamStructs.h is not among the sources.
`FSteamAPICall` carries the 64-bit asynchronous-call-result handle. -/
structure FSteamAPICall where
  Value : Nat
deriving DecidableEq, Repr

/-- Modelled from the spec: SteamStructs.h is not among the sources. `FHSteamUser`
carries the per-process user-session handle (`HSteamUser`, an `int32`). -/
structure FHSteamUser where
  Value : Int
deriving DecidableEq, Repr

/-- Modelled from the spec: SteamEnums.h is not among the sources. The three
engine enumerations returned by the wrappers are reflected enum classes, whose
underlying type the engine fixes to `uint8`; a value of such an enumeration is
its numeric value. -/
structure ESteamBeginAuthSessionResult where
  value : Nat
deriving DecidableEq, Repr

/-- Modelled from the spec: SteamEnums.h is not among the sources (see
`ESteamBeginAuthSessionResult`). -/
structure ESteamUserHasLicenseForAppResult where
  value : Nat
deriving DecidableEq, Repr

/-- Modelled from the spec: SteamEnums.h is not among the sources (see
`ESteamBeginAuthSessionResult`). -/
structure ESteamVoiceResult where
  value : Nat
deriving DecidableEq, Repr

/-- Modelled from the spec: the engine container `TArray` is not among the
sources. A `TArray<uint8>` is given by its elements in order. -/
abbrev TArray_uint8 := List Nat

/-- Engine accessor `TArray::GetData()`: the storage the array occupies, seen as
the bytes it holds. -/
def TArray_uint8.GetData (a : TArray_uint8) : List Nat := a

/-- Engine accessor `TArray::Num()`: the number of elements, an `int32` (the
array stores its count in that type, so no array is longer than `INT32_MAX`). -/
def TArray_uint8.Num (a : TArray_uint8) : Int := (a.length : Int)

/-! ## Strings -/

/-- Modelled from the spec: the engine type `FString` is not among the sources. A
string is given by the sequence of code points of its text (the encoding of the
text in the engine's character type is not modelled). -/
abbrev FString := List Nat

/-- A Unicode scalar value: a code point below 0x110000 outside the surrogate
range 0xD800..0xDFFF. -/
def isScalarValue (c : Nat) : Prop := c < 55296 ∨ (57344 ≤ c ∧ c < 1114112)

instance (c : Nat) : Decidable (isScalarValue c) := by unfold isScalarValue; infer_instance

/-- Code point written for a value that is not a scalar value (the engine's
`UNICODE_BOGUS_CHAR_CODEPOINT`, a question mark). -/
def bogusCodepoint : Nat := 63

/-- UTF-8 encoding of one code point, one to four bytes. -/
def utf8FromCodepoint (c : Nat) : List Nat :=
  if c < 128 then [c]
  else if c < 2048 then [192 + c / 64, 128 + c % 64]
  else if c < 65536 then [224 + c / 4096, 128 + c / 64 % 64, 128 + c % 64]
  else [240 + c / 262144, 128 + c / 4096 % 64, 128 + c / 64 % 64, 128 + c % 64]

/-- UTF-8 encoding of a sequence of code points; a value that is not a scalar
value is replaced by `bogusCodepoint`. -/
def utf8Encode : List Nat → List Nat
  | [] => []
  | c :: cs => utf8FromCodepoint (if isScalarValue c then c else bogusCodepoint) ++ utf8Encode cs

/-- Modelled from the spec: the engine macro `TCHAR_TO_UTF8` (StringConv.h) is not
among the sources; this is the "documented type conversion" of a string. `*S` is
the NUL-terminated character data of `S` (so the text ends at the first NUL
character), and the macro yields a NUL-terminated `char` buffer holding the
UTF-8 encoding of that text. -/
def TCHAR_TO_UTF8 (S : FString) : List Nat :=
  utf8Encode (S.takeWhile (fun c => decide (c ≠ 0))) ++ [0]

/-- The text a reader of a `const char *` sees: the bytes before the first NUL. -/
def cstr (buf : List Nat) : List Nat := buf.takeWhile (fun b => decide (b ≠ 0))

/-- Strict UTF-8 decoding of a byte sequence into code points: rejects stray
and missing continuation bytes, overlong forms, surrogates and values of
0x110000 and above. -/
def utf8Decode : List Nat → Option (List Nat)
  | [] => some []
  | b0 :: r0 =>
    if b0 < 128 then (utf8Decode r0).map (fun cs => b0 :: cs)
    else if b0 < 192 then none
    else match r0 with
      | [] => none
      | b1 :: r1 =>
        if ¬ (128 ≤ b1 ∧ b1 < 192) then none
        else if b0 < 224 then
          if (b0 - 192) * 64 + (b1 - 128) < 128 then none
          else (utf8Decode r1).map (fun cs => ((b0 - 192) * 64 + (b1 - 128)) :: cs)
        else match r1 with
          | [] => none
          | b2 :: r2 =>
            if ¬ (128 ≤ b2 ∧ b2 < 192) then none
            else if b0 < 240 then
              if (b0 - 224) * 4096 + (b1 - 128) * 64 + (b2 - 128) < 2048 then none
              else if ¬ isScalarValue ((b0 - 224) * 4096 + (b1 - 128) * 64 + (b2 - 128)) then none
              else (utf8Decode r2).map
                (fun cs => ((b0 - 224) * 4096 + (b1 - 128) * 64 + (b2 - 128)) :: cs)
            else match r2 with
              | [] => none
              | b3 :: r3 =>
                if ¬ (128 ≤ b3 ∧ b3 < 192) then none
                else if ¬ (b0 < 248) then none
                else if (b0 - 240) * 262144 + (b1 - 128) * 4096 + (b2 - 128) * 64 + (b3 - 128)
                    < 65536 then none
                else if ¬ isScalarValue
                    ((b0 - 240) * 262144 + (b1 - 128) * 4096 + (b2 - 128) * 64 + (b3 - 128)) then none
                else (utf8Decode r3).map (fun cs =>
                  ((b0 - 240) * 262144 + (b1 - 128) * 4096 + (b2 - 128) * 64 + (b3 - 128)) :: cs)

/-! ## The SDK seen from the wrappers -/

/-- Entry points of the SDK interface `ISteamGameServer` that the inline
wrappers of `USteamGameServer` invoke, each with the arguments as the SDK
receives them (parameter types as in the vendor's API reference; the SDK headers
are not among the sources). A `const char *` argument is the buffer it points
to. The accessor `SteamGameServer()` only selects the interface and is not an
entry point. -/
inductive ISteamGameServer
  | AssociateWithClan (steamIDClan : CSteamID)
  | BLoggedOn
  | BSecure
  | CancelAuthTicket (hAuthTicket : Nat)
  | ClearAllKeyValues
  | EnableHeartbeats (bActive : Bool)
  | EndAuthSession (steamID : CSteamID)
  | ForceHeartbeat
  | GetSteamID
  | LogOff
  | LogOn (pszToken : List Nat)
  | LogOnAnonymous
  | RequestUserGroupStatus (steamIDUser steamIDGroup : CSteamID)
  | SetBotPlayerCount (cBotplayers : Int)
  | SetDedicatedServer (bDedicated : Bool)
  | SetGameData (pchGameData : List Nat)
  | SetGameDescription (pszGameDescription : List Nat)
  | SetGameTags (pchGameTags : List Nat)
  | SetHeartbeatInterval (iHeartbeatInterval : Int)
  | SetKeyValue (pKey pValue : List Nat)
  | SetMapName (pszMapName : List Nat)
  | SetMaxPlayerCount (cPlayersMax : Int)
  | SetModDir (pszModDir : List Nat)
  | SetPasswordProtected (bPasswordProtected : Bool)
  | SetProduct (pszProduct : List Nat)
  | SetRegion (pszRegion : List Nat)
  | SetServerName (pszServerName : List Nat)
  | SetSpectatorPort (unSpectatorPort : Nat)
  | SetSpectatorServerName (pszSpectatorServerName : List Nat)
  | UserHasLicenseForApp (steamID : CSteamID) (appID : Nat)
  | WasRestartRequested
deriving DecidableEq, Repr

/-- What each `ISteamGameServer` entry point hands back. -/
def ISteamGameServer.Ret : ISteamGameServer → Type
  | AssociateWithClan _ => Nat
  | BLoggedOn => Bool
  | BSecure => Bool
  | GetSteamID => CSteamID
  | RequestUserGroupStatus _ _ => Bool
  | UserHasLicenseForApp _ _ => EUserHasLicenseForAppResult
  | WasRestartRequested => Bool
  | _ => Unit

/-- Name of the `ISteamGameServer` entry point. -/
def ISteamGameServer.name : ISteamGameServer → String
  | AssociateWithClan _ => "AssociateWithClan"
  | BLoggedOn => "BLoggedOn"
  | BSecure => "BSecure"
  | CancelAuthTicket _ => "CancelAuthTicket"
  | ClearAllKeyValues => "ClearAllKeyValues"
  | EnableHeartbeats _ => "EnableHeartbeats"
  | EndAuthSession _ => "EndAuthSession"
  | ForceHeartbeat => "ForceHeartbeat"
  | GetSteamID => "GetSteamID"
  | LogOff => "LogOff"
  | LogOn _ => "LogOn"
  | LogOnAnonymous => "LogOnAnonymous"
  | RequestUserGroupStatus _ _ => "RequestUserGroupStatus"
  | SetBotPlayerCount _ => "SetBotPlayerCount"
  | SetDedicatedServer _ => "SetDedicatedServer"
  | SetGameData _ => "SetGameData"
  | SetGameDescription _ => "SetGameDescription"
  | SetGameTags _ => "SetGameTags"
  | SetHeartbeatInterval _ => "SetHeartbeatInterval"
  | SetKeyValue _ _ => "SetKeyValue"
  | SetMapName _ => "SetMapName"
  | SetMaxPlayerCount _ => "SetMaxPlayerCount"
  | SetModDir _ => "SetModDir"
  | SetPasswordProtected _ => "SetPasswordProtected"
  | SetProduct _ => "SetProduct"
  | SetRegion _ => "SetRegion"
  | SetServerName _ => "SetServerName"
  | SetSpectatorPort _ => "SetSpectatorPort"
  | SetSpectatorServerName _ => "SetSpectatorServerName"
  | UserHasLicenseForApp _ _ => "UserHasLicenseForApp"
  | WasRestartRequested => "WasRestartRequested"

/-- Entry points of the SDK interface `ISteamUser` that the inline wrappers of
`USteamUser` invoke, each with the arguments as the SDK receives them (parameter
types as in the vendor's API reference). The accessor `SteamUser()` only selects
the interface and is not an entry point.
`GetAvailableVoice` receives a pointer to 32 bits of storage (given here by the
pattern the storage holds on entry) and the SDK's two defaulted arguments. -/
inductive ISteamUser
  | BeginAuthSession (pAuthTicket : List Nat) (cbAuthTicket : Int) (steamID : CSteamID)
  | BIsBehindNAT
  | BIsPhoneIdentifying
  | BIsPhoneRequiringVerification
  | BIsPhoneVerified
  | BIsTwoFactorEnabled
  | BLoggedOn
  | CancelAuthTicket (hAuthTicket : Nat)
  | EndAuthSession (steamID : CSteamID)
  | GetAvailableVoice (pcbCompressed : Nat)
  | GetDurationControl
  | GetGameBadgeLevel (nSeries : Int) (bFoil : Bool)
  | GetHSteamUser
  | GetPlayerSteamLevel
  | GetSteamID
  | GetVoiceOptimalSampleRate
  | StartVoiceRecording
  | StopVoiceRecording
  | TerminateGameConnection (unIPServer : Nat) (usPortServer : Nat)
  | UserHasLicenseForApp (steamID : CSteamID) (appID : Nat)
deriving DecidableEq, Repr

/-- What each `ISteamUser` entry point hands back. For `GetAvailableVoice` this
is the result code together with the `uint32` the SDK stored through
`pcbCompressed`, if it stored one. -/
def ISteamUser.Ret : ISteamUser → Type
  | BeginAuthSession _ _ _ => EBeginAuthSessionResult
  | BIsBehindNAT => Bool
  | BIsPhoneIdentifying => Bool
  | BIsPhoneRequiringVerification => Bool
  | BIsPhoneVerified => Bool
  | BIsTwoFactorEnabled => Bool
  | BLoggedOn => Bool
  | GetAvailableVoice _ => EVoiceResult × Option Nat
  | GetDurationControl => Nat
  | GetGameBadgeLevel _ _ => Int
  | GetHSteamUser => Int
  | GetPlayerSteamLevel => Int
  | GetSteamID => CSteamID
  | GetVoiceOptimalSampleRate => Nat
  | UserHasLicenseForApp _ _ => EUserHasLicenseForAppResult
  | _ => Unit

/-- Name of the `ISteamUser` entry point. -/
def ISteamUser.name : ISteamUser → String
  | BeginAuthSession _ _ _ => "BeginAuthSession"
  | BIsBehindNAT => "BIsBehindNAT"
  | BIsPhoneIdentifying => "BIsPhoneIdentifying"
  | BIsPhoneRequiringVerification => "BIsPhoneRequiringVerification"
  | BIsPhoneVerified => "BIsPhoneVerified"
  | BIsTwoFactorEnabled => "BIsTwoFactorEnabled"
  | BLoggedOn => "BLoggedOn"
  | CancelAuthTicket _ => "CancelAuthTicket"
  | EndAuthSession _ => "EndAuthSession"
  | GetAvailableVoice _ => "GetAvailableVoice"
  | GetDurationControl => "GetDurationControl"
  | GetGameBadgeLevel _ _ => "GetGameBadgeLevel"
  | GetHSteamUser => "GetHSteamUser"
  | GetPlayerSteamLevel => "GetPlayerSteamLevel"
  | GetSteamID => "GetSteamID"
  | GetVoiceOptimalSampleRate => "GetVoiceOptimalSampleRate"
  | StartVoiceRecording => "StartVoiceRecording"
  | StopVoiceRecording => "StopVoiceRecording"
  | TerminateGameConnection _ _ => "TerminateGameConnection"
  | UserHasLicenseForApp _ _ => "UserHasLicenseForApp"

/-- The two SDK interfaces, reached through the accessors `SteamGameServer()`
and `SteamUser()`. -/
inductive SdkInterface
  | SteamGameServer
  | SteamUser
deriving DecidableEq, Repr

/-- One invocation of an SDK entry point. -/
inductive SdkCall
  | gameServer (c : ISteamGameServer)
  | user (c : ISteamUser)
deriving DecidableEq, Repr

/-- Type of the answer to an invocation. -/
def SdkCall.Ret : SdkCall → Type
  | gameServer c => c.Ret
  | user c => c.Ret

/-- Interface and name of the entry point invoked. -/
def SdkCall.entryPoint : SdkCall → SdkInterface × String
  | gameServer c => (SdkInterface.SteamGameServer, c.name)
  | user c => (SdkInterface.SteamUser, c.name)

/-- A wrapper body: return a value, or invoke the SDK and continue with its
answer. -/
inductive Prog (α : Type) : Type
  | ret (a : α)
  | call (c : SdkCall) (k : c.Ret → Prog α)

/-- The SDK as the wrappers meet it: some private state, and for every
invocation an answer and a next state. Nothing else is assumed of it. -/
structure Sdk where
  State : Type
  exec : (c : SdkCall) → State → c.Ret × State

/-- What one run of a wrapper leaves behind. -/
structure Outcome (σ α : Type) where
  result : α
  state : σ
  calls : List SdkCall

/-- Run a wrapper body against an SDK, from a given SDK state. -/
def Prog.run {α : Type} (sdk : Sdk) : Prog α → sdk.State → Outcome sdk.State α
  | ret a, s => ⟨a, s, []⟩
  | call c k, s =>
    let o := (k (sdk.exec c s).1).run sdk (sdk.exec c s).2
    ⟨o.result, o.state, c :: o.calls⟩

/-! ## USteamGameServer (SteamGameServer.h) -/

namespace USteamGameServer

/-- Wrapper body
`return SteamGameServer()->AssociateWithClan(SteamIDClan.Value);` -/
def AssociateWithClan (SteamIDClan : FSteamID) : Prog FSteamAPICall :=
  .call (.gameServer (.AssociateWithClan (CSteamID.ofUint64 SteamIDClan.Value)))
    fun r => .ret (FSteamAPICall.mk r)

/-- Wrapper body `return SteamGameServer()->BLoggedOn();` -/
def BLoggedOn : Prog Bool :=
  .call (.gameServer .BLoggedOn) fun r => .ret r

/-- Wrapper body `return SteamGameServer()->BSecure();` -/
def BSecure : Prog Bool :=
  .call (.gameServer .BSecure) fun r => .ret r

/-- Wrapper body `SteamGameServer()->CancelAuthTicket(AuthTicketHandle.Value);` -/
def CancelAuthTicket (AuthTicketHandle : FHAuthTicket) : Prog Unit :=
  .call (.gameServer (.CancelAuthTicket AuthTicketHandle.Value)) fun _ => .ret ()

/-- Wrapper body `SteamGameServer()->ClearAllKeyValues();` -/
def ClearAllKeyValues : Prog Unit :=
  .call (.gameServer .ClearAllKeyValues) fun _ => .ret ()

/-- Wrapper body `SteamGameServer()->EnableHeartbeats(bActive);` -/
def EnableHeartbeats (bActive : Bool) : Prog Unit :=
  .call (.gameServer (.EnableHeartbeats bActive)) fun _ => .ret ()

/-- Wrapper body `SteamGameServer()->EndAuthSession(SteamID.Value);` -/
def EndAuthSession (SteamID : FSteamID) : Prog Unit :=
  .call (.gameServer (.EndAuthSession (CSteamID.ofUint64 SteamID.Value))) fun _ => .ret ()

/-- Wrapper body `SteamGameServer()->ForceHeartbeat();` -/
def ForceHeartbeat : Prog Unit :=
  .call (.gameServer .ForceHeartbeat) fun _ => .ret ()

/-- Wrapper body `return SteamGameServer()->GetSteamID().ConvertToUint64();`, the
`uint64` becoming the returned `FSteamID`. -/
def GetSteamID : Prog FSteamID :=
  .call (.gameServer .GetSteamID) fun (r : CSteamID) => .ret (FSteamID.mk r.ConvertToUint64)

/-- Wrapper body `SteamGameServer()->LogOff();` -/
def LogOff : Prog Unit :=
  .call (.gameServer .LogOff) fun _ => .ret ()

/-- Wrapper body `SteamGameServer()->LogOn(TCHAR_TO_UTF8(*Token));` -/
def LogOn (Token : FString) : Prog Unit :=
  .call (.gameServer (.LogOn (TCHAR_TO_UTF8 Token))) fun _ => .ret ()

/-- Wrapper body `SteamGameServer()->LogOnAnonymous();` -/
def LogOnAnonymous : Prog Unit :=
  .call (.gameServer .LogOnAnonymous) fun _ => .ret ()

/-- Wrapper body
`return SteamGameServer()->RequestUserGroupStatus(SteamIDUser.Value, SteamIDGroup.Value);` -/
def RequestUserGroupStatus (SteamIDUser SteamIDGroup : FSteamID) : Prog Bool :=
  .call (.gameServer (.RequestUserGroupStatus (CSteamID.ofUint64 SteamIDUser.Value)
    (CSteamID.ofUint64 SteamIDGroup.Value))) fun r => .ret r

/-- Wrapper body `SteamGameServer()->SetBotPlayerCount(BotPlayers);` -/
def SetBotPlayerCount (BotPlayers : Int) : Prog Unit :=
  .call (.gameServer (.SetBotPlayerCount BotPlayers)) fun _ => .ret ()

/-- Wrapper body `SteamGameServer()->SetDedicatedServer(bDedicated);` -/
def SetDedicatedServer (bDedicated : Bool) : Prog Unit :=
  .call (.gameServer (.SetDedicatedServer bDedicated)) fun _ => .ret ()

/-- Wrapper body `SteamGameServer()->SetGameData(TCHAR_TO_UTF8(*GameData));` -/
def SetGameData (GameData : FString) : Prog Unit :=
  .call (.gameServer (.SetGameData (TCHAR_TO_UTF8 GameData))) fun _ => .ret ()

/-- Wrapper body
`SteamGameServer()->SetGameDescription(TCHAR_TO_UTF8(*GameDescription));` -/
def SetGameDescription (GameDescription : FString) : Prog Unit :=
  .call (.gameServer (.SetGameDescription (TCHAR_TO_UTF8 GameDescription))) fun _ => .ret ()

/-- Wrapper body `SteamGameServer()->SetGameTags(TCHAR_TO_UTF8(*GameTags));` -/
def SetGameTags (GameTags : FString) : Prog Unit :=
  .call (.gameServer (.SetGameTags (TCHAR_TO_UTF8 GameTags))) fun _ => .ret ()

/-- Wrapper body `SteamGameServer()->SetHeartbeatInterval(HeartbeatInterval);` -/
def SetHeartbeatInterval (HeartbeatInterval : Int) : Prog Unit :=
  .call (.gameServer (.SetHeartbeatInterval HeartbeatInterval)) fun _ => .ret ()

/-- Wrapper body
`SteamGameServer()->SetKeyValue(TCHAR_TO_UTF8(*Key), TCHAR_TO_UTF8(*Value));` -/
def SetKeyValue (Key Value : FString) : Prog Unit :=
  .call (.gameServer (.SetKeyValue (TCHAR_TO_UTF8 Key) (TCHAR_TO_UTF8 Value))) fun _ => .ret ()

/-- Wrapper body `SteamGameServer()->SetMapName(TCHAR_TO_UTF8(*MapName));` -/
def SetMapName (MapName : FString) : Prog Unit :=
  .call (.gameServer (.SetMapName (TCHAR_TO_UTF8 MapName))) fun _ => .ret ()

/-- Wrapper body `SteamGameServer()->SetMaxPlayerCount(PlayersMax);` -/
def SetMaxPlayerCount (PlayersMax : Int) : Prog Unit :=
  .call (.gameServer (.SetMaxPlayerCount PlayersMax)) fun _ => .ret ()

/-- Wrapper body `SteamGameServer()->SetModDir(TCHAR_TO_UTF8(*ModDir));` -/
def SetModDir (ModDir : FString) : Prog Unit :=
  .call (.gameServer (.SetModDir (TCHAR_TO_UTF8 ModDir))) fun _ => .ret ()

/-- Wrapper body `SteamGameServer()->SetPasswordProtected(bPasswordProtected);` -/
def SetPasswordProtected (bPasswordProtected : Bool) : Prog Unit :=
  .call (.gameServer (.SetPasswordProtected bPasswordProtected)) fun _ => .ret ()

/-- Wrapper body `SteamGameServer()->SetProduct(TCHAR_TO_UTF8(*Product));` -/
def SetProduct (Product : FString) : Prog Unit :=
  .call (.gameServer (.SetProduct (TCHAR_TO_UTF8 Product))) fun _ => .ret ()

/-- Wrapper body `SteamGameServer()->SetRegion(TCHAR_TO_UTF8(*Region));` -/
def SetRegion (Region : FString) : Prog Unit :=
  .call (.gameServer (.SetRegion (TCHAR_TO_UTF8 Region))) fun _ => .ret ()

/-- Wrapper body `SteamGameServer()->SetServerName(TCHAR_TO_UTF8(*ServerName));` -/
def SetServerName (ServerName : FString) : Prog Unit :=
  .call (.gameServer (.SetServerName (TCHAR_TO_UTF8 ServerName))) fun _ => .ret ()

/-- Wrapper body
`SteamGameServer()->SetSpectatorPort(FMath::Clamp<uint16>(SpectatorPort, 0, 65535));` -/
def SetSpectatorPort (SpectatorPort : Int) : Prog Unit :=
  .call (.gameServer (.SetSpectatorPort (FMath.Clamp_uint16 SpectatorPort 0 65535)))
    fun _ => .ret ()

/-- Wrapper body
`SteamGameServer()->SetSpectatorServerName(TCHAR_TO_UTF8(*SpectatorServerName));` -/
def SetSpectatorServerName (SpectatorServerName : FString) : Prog Unit :=
  .call (.gameServer (.SetSpectatorServerName (TCHAR_TO_UTF8 SpectatorServerName)))
    fun _ => .ret ()

/-- Wrapper body `return (ESteamUserHasLicenseForAppResult)
SteamGameServer()->UserHasLicenseForApp(SteamID.Value, AppID);`; the `int32`
`AppID` becomes the SDK's `AppId_t` (`uint32`). -/
def UserHasLicenseForApp (SteamID : FSteamID) (AppID : Int) :
    Prog ESteamUserHasLicenseForAppResult :=
  .call (.gameServer (.UserHasLicenseForApp (CSteamID.ofUint64 SteamID.Value) (toUInt32 AppID)))
    fun (r : EUserHasLicenseForAppResult) =>
      .ret (ESteamUserHasLicenseForAppResult.mk (toUInt8 r.toInt))

/-- Wrapper body `return SteamGameServer()->WasRestartRequested();` -/
def WasRestartRequested : Prog Bool :=
  .call (.gameServer .WasRestartRequested) fun r => .ret r

end USteamGameServer

/-! ## USteamUser (SteamUser.h) -/

namespace USteamUser

/-- Wrapper body `return (ESteamBeginAuthSessionResult)
SteamUser()->BeginAuthSession(Ticket.GetData(), Ticket.Num(), SteamID.Value);` -/
def BeginAuthSession (Ticket : TArray_uint8) (SteamID : FSteamID) :
    Prog ESteamBeginAuthSessionResult :=
  .call (.user (.BeginAuthSession Ticket.GetData Ticket.Num (CSteamID.ofUint64 SteamID.Value)))
    fun (r : EBeginAuthSessionResult) => .ret (ESteamBeginAuthSessionResult.mk (toUInt8 r.toInt))

/-- Wrapper body `return SteamUser()->BIsBehindNAT();` -/
def BIsBehindNAT : Prog Bool :=
  .call (.user .BIsBehindNAT) fun r => .ret r

/-- Wrapper body `return SteamUser()->BIsPhoneIdentifying();` -/
def BIsPhoneIdentifying : Prog Bool :=
  .call (.user .BIsPhoneIdentifying) fun r => .ret r

/-- Wrapper body `return SteamUser()->BIsPhoneRequiringVerification();` -/
def BIsPhoneRequiringVerification : Prog Bool :=
  .call (.user .BIsPhoneRequiringVerification) fun r => .ret r

/-- Wrapper body `return SteamUser()->BIsPhoneVerified();` -/
def BIsPhoneVerified : Prog Bool :=
  .call (.user .BIsPhoneVerified) fun r => .ret r

/-- Wrapper body `return SteamUser()->BIsTwoFactorEnabled();` -/
def BIsTwoFactorEnabled : Prog Bool :=
  .call (.user .BIsTwoFactorEnabled) fun r => .ret r

/-- Wrapper body `return SteamUser()->BLoggedOn();` -/
def BLoggedOn : Prog Bool :=
  .call (.user .BLoggedOn) fun r => .ret r

/-- Wrapper body `SteamUser()->CancelAuthTicket(AuthTicket);`, the `FHAuthTicket`
converting implicitly to the SDK's `HAuthTicket`. -/
def CancelAuthTicket (AuthTicket : FHAuthTicket) : Prog Unit :=
  .call (.user (.CancelAuthTicket AuthTicket.toHAuthTicket)) fun _ => .ret ()

/-- Wrapper body `SteamUser()->EndAuthSession(SteamID.Value);` -/
def EndAuthSession (SteamID : FSteamID) : Prog Unit :=
  .call (.user (.EndAuthSession (CSteamID.ofUint64 SteamID.Value))) fun _ => .ret ()

/-- Wrapper body `return (ESteamVoiceResult)
SteamUser()->GetAvailableVoice((uint32*)&CompressedSize);`. `CompressedSize` is
a reference parameter: the SDK is handed the address of its 32 bits as a
`uint32 *`, and afterwards the caller reads those 32 bits as an `int32` again.
The result pairs the return value with `CompressedSize` after the call. -/
def GetAvailableVoice (CompressedSize : Int) : Prog (ESteamVoiceResult × Int) :=
  .call (.user (.GetAvailableVoice (toUInt32 CompressedSize)))
    fun (r : EVoiceResult × Option Nat) =>
      .ret (ESteamVoiceResult.mk (toUInt8 r.1.toInt),
        toInt32 (r.2.getD (toUInt32 CompressedSize)))

/-- Wrapper body `return (FSteamAPICall)SteamUser()->GetDurationControl();` -/
def GetDurationControl : Prog FSteamAPICall :=
  .call (.user .GetDurationControl) fun r => .ret (FSteamAPICall.mk r)

/-- Wrapper body `return SteamUser()->GetGameBadgeLevel(nSeries, bFoil);` -/
def GetGameBadgeLevel (nSeries : Int) (bFoil : Bool) : Prog Int :=
  .call (.user (.GetGameBadgeLevel nSeries bFoil)) fun r => .ret r

/-- Wrapper body `return (FHSteamUser)SteamUser()->GetHSteamUser();` -/
def GetHSteamUser : Prog FHSteamUser :=
  .call (.user .GetHSteamUser) fun r => .ret (FHSteamUser.mk r)

/-- Wrapper body `return SteamUser()->GetPlayerSteamLevel();` -/
def GetPlayerSteamLevel : Prog Int :=
  .call (.user .GetPlayerSteamLevel) fun r => .ret r

/-- Wrapper body `return SteamUser()->GetSteamID().ConvertToUint64();`, the
`uint64` becoming the returned `FSteamID`. -/
def GetSteamID : Prog FSteamID :=
  .call (.user .GetSteamID) fun (r : CSteamID) => .ret (FSteamID.mk r.ConvertToUint64)

/-- Wrapper body `return (uint32)SteamUser()->GetVoiceOptimalSampleRate();`, the
`uint32` converting to the `int32` return type. -/
def GetVoiceOptimalSampleRate : Prog Int :=
  .call (.user .GetVoiceOptimalSampleRate) fun (r : Nat) => .ret (toInt32 (r : Int))

/-- Wrapper body `SteamUser()->StartVoiceRecording();` -/
def StartVoiceRecording : Prog Unit :=
  .call (.user .StartVoiceRecording) fun _ => .ret ()

/-- Wrapper body `SteamUser()->StopVoiceRecording();` -/
def StopVoiceRecording : Prog Unit :=
  .call (.user .StopVoiceRecording) fun _ => .ret ()

/-- Wrapper body `SteamUser()->TerminateGameConnection(IPServer, PortServer);`,
the two `int32` arguments converting to the SDK's `uint32 unIPServer` and
`uint16 usPortServer`. -/
def TerminateGameConnection (IPServer PortServer : Int) : Prog Unit :=
  .call (.user (.TerminateGameConnection (toUInt32 IPServer) (toUInt16 PortServer)))
    fun _ => .ret ()

/-- Wrapper body `return (ESteamUserHasLicenseForAppResult)
SteamUser()->UserHasLicenseForApp(steamID.Value, appID);`; the `int32` `appID`
becomes the SDK's `AppId_t` (`uint32`). -/
def UserHasLicenseForApp (steamID : FSteamID) (appID : Int) :
    Prog ESteamUserHasLicenseForAppResult :=
  .call (.user (.UserHasLicenseForApp (CSteamID.ofUint64 steamID.Value) (toUInt32 appID)))
    fun (r : EUserHasLicenseForAppResult) =>
      .ret (ESteamUserHasLicenseForAppResult.mk (toUInt8 r.toInt))

end USteamUser

/-! ## The inline wrappers, listed -/

/-- An inline wrapper method: the class it belongs to (given by the SDK interface
the class wraps), its name, its parameters and result, and its body. -/
structure Wrapper where
  cls : SdkInterface
  name : String
  Args : Type
  Result : Type
  body : Args → Prog Result

/-- The inline wrapper methods of `USteamGameServer` (SteamGameServer.h, lines
44 to 360), in source order. -/
def USteamGameServer.inlineWrappers : List Wrapper :=
  [ ⟨.SteamGameServer, "AssociateWithClan", FSteamID, _, USteamGameServer.AssociateWithClan⟩,
    ⟨.SteamGameServer, "BLoggedOn", Unit, _, fun _ => USteamGameServer.BLoggedOn⟩,
    ⟨.SteamGameServer, "BSecure", Unit, _, fun _ => USteamGameServer.BSecure⟩,
    ⟨.SteamGameServer, "CancelAuthTicket", FHAuthTicket, _, USteamGameServer.CancelAuthTicket⟩,
    ⟨.SteamGameServer, "ClearAllKeyValues", Unit, _, fun _ => USteamGameServer.ClearAllKeyValues⟩,
    ⟨.SteamGameServer, "EnableHeartbeats", Bool, _, USteamGameServer.EnableHeartbeats⟩,
    ⟨.SteamGameServer, "EndAuthSession", FSteamID, _, USteamGameServer.EndAuthSession⟩,
    ⟨.SteamGameServer, "ForceHeartbeat", Unit, _, fun _ => USteamGameServer.ForceHeartbeat⟩,
    ⟨.SteamGameServer, "GetSteamID", Unit, _, fun _ => USteamGameServer.GetSteamID⟩,
    ⟨.SteamGameServer, "LogOff", Unit, _, fun _ => USteamGameServer.LogOff⟩,
    ⟨.SteamGameServer, "LogOn", FString, _, USteamGameServer.LogOn⟩,
    ⟨.SteamGameServer, "LogOnAnonymous", Unit, _, fun _ => USteamGameServer.LogOnAnonymous⟩,
    ⟨.SteamGameServer, "RequestUserGroupStatus", FSteamID × FSteamID, _,
      fun a => USteamGameServer.RequestUserGroupStatus a.1 a.2⟩,
    ⟨.SteamGameServer, "SetBotPlayerCount", Int, _, USteamGameServer.SetBotPlayerCount⟩,
    ⟨.SteamGameServer, "SetDedicatedServer", Bool, _, USteamGameServer.SetDedicatedServer⟩,
    ⟨.SteamGameServer, "SetGameData", FString, _, USteamGameServer.SetGameData⟩,
    ⟨.SteamGameServer, "SetGameDescription", FString, _, USteamGameServer.SetGameDescription⟩,
    ⟨.SteamGameServer, "SetGameTags", FString, _, USteamGameServer.SetGameTags⟩,
    ⟨.SteamGameServer, "SetHeartbeatInterval", Int, _, USteamGameServer.SetHeartbeatInterval⟩,
    ⟨.SteamGameServer, "SetKeyValue", FString × FString, _,
      fun a => USteamGameServer.SetKeyValue a.1 a.2⟩,
    ⟨.SteamGameServer, "SetMapName", FString, _, USteamGameServer.SetMapName⟩,
    ⟨.SteamGameServer, "SetMaxPlayerCount", Int, _, USteamGameServer.SetMaxPlayerCount⟩,
    ⟨.SteamGameServer, "SetModDir", FString, _, USteamGameServer.SetModDir⟩,
    ⟨.SteamGameServer, "SetPasswordProtected", Bool, _, USteamGameServer.SetPasswordProtected⟩,
    ⟨.SteamGameServer, "SetProduct", FString, _, USteamGameServer.SetProduct⟩,
    ⟨.SteamGameServer, "SetRegion", FString, _, USteamGameServer.SetRegion⟩,
    ⟨.SteamGameServer, "SetServerName", FString, _, USteamGameServer.SetServerName⟩,
    ⟨.SteamGameServer, "SetSpectatorPort", Int, _, USteamGameServer.SetSpectatorPort⟩,
    ⟨.SteamGameServer, "SetSpectatorServerName", FString, _,
      USteamGameServer.SetSpectatorServerName⟩,
    ⟨.SteamGameServer, "UserHasLicenseForApp", FSteamID × Int, _,
      fun a => USteamGameServer.UserHasLicenseForApp a.1 a.2⟩,
    ⟨.SteamGameServer, "WasRestartRequested", Unit, _,
      fun _ => USteamGameServer.WasRestartRequested⟩ ]

/-- The inline wrapper methods of `USteamUser` (SteamUser.h, lines 68 to 317), in
source order. -/
def USteamUser.inlineWrappers : List Wrapper :=
  [ ⟨.SteamUser, "BeginAuthSession", TArray_uint8 × FSteamID, _,
      fun a => USteamUser.BeginAuthSession a.1 a.2⟩,
    ⟨.SteamUser, "BIsBehindNAT", Unit, _, fun _ => USteamUser.BIsBehindNAT⟩,
    ⟨.SteamUser, "BIsPhoneIdentifying", Unit, _, fun _ => USteamUser.BIsPhoneIdentifying⟩,
    ⟨.SteamUser, "BIsPhoneRequiringVerification", Unit, _,
      fun _ => USteamUser.BIsPhoneRequiringVerification⟩,
    ⟨.SteamUser, "BIsPhoneVerified", Unit, _, fun _ => USteamUser.BIsPhoneVerified⟩,
    ⟨.SteamUser, "BIsTwoFactorEnabled", Unit, _, fun _ => USteamUser.BIsTwoFactorEnabled⟩,
    ⟨.SteamUser, "BLoggedOn", Unit, _, fun _ => USteamUser.BLoggedOn⟩,
    ⟨.SteamUser, "CancelAuthTicket", FHAuthTicket, _, USteamUser.CancelAuthTicket⟩,
    ⟨.SteamUser, "EndAuthSession", FSteamID, _, USteamUser.EndAuthSession⟩,
    ⟨.SteamUser, "GetAvailableVoice", Int, _, USteamUser.GetAvailableVoice⟩,
    ⟨.SteamUser, "GetDurationControl", Unit, _, fun _ => USteamUser.GetDurationControl⟩,
    ⟨.SteamUser, "GetGameBadgeLevel", Int × Bool, _,
      fun a => USteamUser.GetGameBadgeLevel a.1 a.2⟩,
    ⟨.SteamUser, "GetHSteamUser", Unit, _, fun _ => USteamUser.GetHSteamUser⟩,
    ⟨.SteamUser, "GetPlayerSteamLevel", Unit, _, fun _ => USteamUser.GetPlayerSteamLevel⟩,
    ⟨.SteamUser, "GetSteamID", Unit, _, fun _ => USteamUser.GetSteamID⟩,
    ⟨.SteamUser, "GetVoiceOptimalSampleRate", Unit, _,
      fun _ => USteamUser.GetVoiceOptimalSampleRate⟩,
    ⟨.SteamUser, "StartVoiceRecording", Unit, _, fun _ => USteamUser.StartVoiceRecording⟩,
    ⟨.SteamUser, "StopVoiceRecording", Unit, _, fun _ => USteamUser.StopVoiceRecording⟩,
    ⟨.SteamUser, "TerminateGameConnection", Int × Int, _,
      fun a => USteamUser.TerminateGameConnection a.1 a.2⟩,
    ⟨.SteamUser, "UserHasLicenseForApp", FSteamID × Int, _,
      fun a => USteamUser.UserHasLicenseForApp a.1 a.2⟩ ]

/-! ## A sample SDK

A concrete responder, used to instantiate the general statements below. Its
state counts the invocations it has served, and its answers vary with it. -/

/-- Answers of the sample SDK on `ISteamGameServer`, in state `s`. -/
def sampleGameServerRet (s : Nat) : (c : ISteamGameServer) → c.Ret
  | .AssociateWithClan _ => (7 + s : Nat)
  | .BLoggedOn => decide (s % 2 = 0)
  | .BSecure => decide (s % 2 = 0)
  | .CancelAuthTicket _ => ()
  | .ClearAllKeyValues => ()
  | .EnableHeartbeats _ => ()
  | .EndAuthSession _ => ()
  | .ForceHeartbeat => ()
  | .GetSteamID => CSteamID.mk (90071992547409920 + s)
  | .LogOff => ()
  | .LogOn _ => ()
  | .LogOnAnonymous => ()
  | .RequestUserGroupStatus _ _ => decide (s % 2 = 0)
  | .SetBotPlayerCount _ => ()
  | .SetDedicatedServer _ => ()
  | .SetGameData _ => ()
  | .SetGameDescription _ => ()
  | .SetGameTags _ => ()
  | .SetHeartbeatInterval _ => ()
  | .SetKeyValue _ _ => ()
  | .SetMapName _ => ()
  | .SetMaxPlayerCount _ => ()
  | .SetModDir _ => ()
  | .SetPasswordProtected _ => ()
  | .SetProduct _ => ()
  | .SetRegion _ => ()
  | .SetServerName _ => ()
  | .SetSpectatorPort _ => ()
  | .SetSpectatorServerName _ => ()
  | .UserHasLicenseForApp _ _ =>
    if s = 0 then EUserHasLicenseForAppResult.k_EUserHasLicenseResultHasLicense
    else EUserHasLicenseForAppResult.k_EUserHasLicenseResultNoAuth
  | .WasRestartRequested => decide (s = 0)

/-- Answers of the sample SDK on `ISteamUser`, in state `s`. -/
def sampleUserRet (s : Nat) : (c : ISteamUser) → c.Ret
  | .BeginAuthSession _ _ _ =>
    if s = 0 then EBeginAuthSessionResult.k_EBeginAuthSessionResultOK
    else EBeginAuthSessionResult.k_EBeginAuthSessionResultExpiredTicket
  | .BIsBehindNAT => decide (s % 2 = 0)
  | .BIsPhoneIdentifying => decide (s % 2 = 0)
  | .BIsPhoneRequiringVerification => decide (s % 2 = 0)
  | .BIsPhoneVerified => decide (s % 2 = 0)
  | .BIsTwoFactorEnabled => decide (s % 2 = 0)
  | .BLoggedOn => decide (s % 2 = 0)
  | .CancelAuthTicket _ => ()
  | .EndAuthSession _ => ()
  | .GetAvailableVoice _ =>
    if s = 0 then (EVoiceResult.k_EVoiceResultOK, some 1024)
    else (EVoiceResult.k_EVoiceResultNotRecording, none)
  | .GetDurationControl => (11 + s : Nat)
  | .GetGameBadgeLevel nSeries _ => nSeries
  | .GetHSteamUser => (1 : Int)
  | .GetPlayerSteamLevel => (42 : Int)
  | .GetSteamID => CSteamID.mk (76561197960287930 + s)
  | .GetVoiceOptimalSampleRate => (48000 : Nat)
  | .StartVoiceRecording => ()
  | .StopVoiceRecording => ()
  | .TerminateGameConnection _ _ => ()
  | .UserHasLicenseForApp _ _ =>
    if s = 0 then EUserHasLicenseForAppResult.k_EUserHasLicenseResultHasLicense
    else EUserHasLicenseForAppResult.k_EUserHasLicenseResultDoesNotHaveLicense

/-- The sample SDK. -/
def sampleSdk : Sdk where
  State := Nat
  exec := fun c s =>
    match c with
    | .gameServer c => (sampleGameServerRet s c, s + 1)
    | .user c => (sampleUserRet s c, s + 1)

/-! ## Further members and reference definitions -/

/-- Member initialiser `int32 m_buffer = 8192;` of `USteamUser` (SteamUser.h,
line 362). -/
def USteamUser.m_buffer : Int := 8192

/-- Size in bytes that the documentation of `USteamUser::GetVoice` recommends
for the destination buffer of compressed audio ("an 8 kilobytes or larger
destination buffer"), a kilobyte counted as 1024 bytes. -/
def USteamUser.GetVoice_recommendedBufferBytes : Int := 8 * 1024

/-- A value clamped to the range of port numbers, as a caller reading
"clamp to 0..65535" expects it: `max(0, min(65535, p))`. -/
def clampToPortRange (p : Int) : Int := max 0 (min 65535 p)

/-- Modelled from the spec: the SDK keeps the restart-requested flag inside its
closed binary. By the documentation of `WasRestartRequested` (SteamGameServer.h,
lines 353 to 357) the call "checks if the master server has alerted us that we
are out of date" and the flag "reverts back to false after calling this
function". This SDK has the flag as its whole state: `WasRestartRequested`
answers the flag and clears it; every other entry point leaves it alone (and
answers as the sample SDK does in its initial state). -/
def restartFlagSdk : Sdk where
  State := Bool
  exec := fun c restartRequested =>
    match c with
    | .gameServer .WasRestartRequested => (restartRequested, false)
    | .gameServer c => (sampleGameServerRet 0 c, restartRequested)
    | .user c => (sampleUserRet 0 c, restartRequested)

/-- Modelled from the spec: the event inside the SDK that raises the flag, the
master server alerting the game server that it is out of date. -/
def restartFlagSdk.outOfDateAlert (_restartRequested : Bool) : Bool := true

/-! ## Delegates and callback declarations -/

/-- A `UPROPERTY(BlueprintAssignable, ...)` delegate member of a wrapper class:
the delegate type, the Blueprint display name given in `meta`, and the member
name. -/
structure DelegateProperty where
  type : String
  displayName : String
  member : String
deriving DecidableEq, Repr

/-- A `STEAM_CALLBACK_MANUAL(thisclass, func, callback_type, var)` or
`STEAM_GAMESERVER_CALLBACK_MANUAL(...)` line of a wrapper class: the handler
`func`, the SDK callback struct `callback_type` it receives, and the
registration member `var`. -/
structure CallbackDeclaration where
  func : String
  callback_type : String
  var : String
deriving DecidableEq, Repr

/-- The delegate members of `USteamGameServer` (SteamGameServer.h, lines 363 to
382), in source order. -/
def USteamGameServer.delegateProperties : List DelegateProperty :=
  [ ⟨"FOnAssociateWithClanResultDelegate", "OnAssociateWithClanResult",
      "m_OnAssociateWithClanResult"⟩,
    ⟨"FOnComputeNewPlayerCompatibilityResultDelegate", "OnComputeNewPlayerCompatibilityResult",
      "m_OnComputeNewPlayerCompatibilityResult"⟩,
    ⟨"FOnGSClientApproveDelegate", "OnGSClientApprove", "m_OnGSClientApprove"⟩,
    ⟨"FOnGSClientDenyDelegate", "OnGSClientDeny", "m_OnGSClientDeny"⟩,
    ⟨"FOnGSClientGroupStatusDelegate", "OnGSClientGroupStatus", "m_OnGSClientGroupStatus"⟩,
    ⟨"FOnGSClientKickDelegate", "OnGSClientKick", "m_OnGSClientKick"⟩,
    ⟨"FOnGSPolicyResponseDelegate", "OnGSPolicyResponse", "m_OnGSPolicyResponse"⟩ ]

/-- The `STEAM_GAMESERVER_CALLBACK_MANUAL` lines of `USteamGameServer`
(SteamGameServer.h, lines 386 to 392), in source order. -/
def USteamGameServer.callbackDeclarations : List CallbackDeclaration :=
  [ ⟨"OnAssociateWithClanResult", "AssociateWithClanResult_t",
      "OnAssociateWithClanResultCallback"⟩,
    ⟨"OnComputeNewPlayerCompatibilityResult", "ComputeNewPlayerCompatibilityResult_t",
      "OnComputeNewPlayerCompatibilityResultCallback"⟩,
    ⟨"OnGSClientApprove", "GSClientApprove_t", "OnGSClientApproveCallback"⟩,
    ⟨"OnGSClientDeny", "GSClientDeny_t", "OnGSClientDenyCallback"⟩,
    ⟨"OnGSClientGroupStatus", "GSClientGroupStatus_t", "OnGSClientGroupStatusCallback"⟩,
    ⟨"OnGSClientKick", "GSClientKick_t", "OnGSClientKickCallback"⟩,
    ⟨"OnGSPolicyResponse", "GSPolicyResponse_t", "OnGSPolicyResponseCallback"⟩ ]

/-- The delegate members of `USteamUser` (SteamUser.h, lines 321 to 358), in
source order. -/
def USteamUser.delegateProperties : List DelegateProperty :=
  [ ⟨"FOnClientGameServerDenyDelegate", "OnClientGameServerDeny", "m_OnClientGameServerDeny"⟩,
    ⟨"FOnDurationControlDelegate", "OnDurationControl", "m_OnDurationControl"⟩,
    ⟨"FOnEncryptedAppTicketResponseDelegate", "OnEncryptedAppTicketResponse",
      "m_OnEncryptedAppTicketResponse"⟩,
    ⟨"FOnGameWebCallbackDelegate", "OnGameWebCallback", "m_OnGameWeb"⟩,
    ⟨"FOnGetAuthSessionTicketResponseDelegate", "OnGetAuthSessionTicketResponse",
      "m_OnGetAuthSessionTicketResponse"⟩,
    ⟨"FOnIPCFailureDelegate", "OnIPCFailure", "m_IPCFailure"⟩,
    ⟨"FOnLicensesUpdatedDelegate", "OnLicensesUpdated", "m_OnLicensesUpdated"⟩,
    ⟨"FOnMicroTxnAuthorizationResponseDelegate", "OnMicroTxnAuthorizationResponse",
      "m_OnMicroTxnAuthorizationResponse"⟩,
    ⟨"FOnSteamServerConnectFailureDelegate", "OnSteamServerConnectFailure",
      "m_OnSteamServerConnectFailure"⟩,
    ⟨"FOnSteamServersConnectedDelegate", "OnSteamServersConnected",
      "m_OnSteamServersConnected"⟩,
    ⟨"FOnSteamServersDisconnectedDelegate", "OnSteamServersDisconnected",
      "m_OnSteamServersDisconnected"⟩,
    ⟨"FOnStoreAuthURLResponseDelegate", "OnStoreAuthURLResponse", "m_OnStoreAuthURLResponse"⟩,
    ⟨"FOnValidateAuthTicketResponseDelegate", "OnValidateAuthTicketResponse",
      "m_OnValidateAuthTicketResponse"⟩ ]

/-- The `STEAM_CALLBACK_MANUAL` lines of `USteamUser` (SteamUser.h, lines 364 to
376), in source order. -/
def USteamUser.callbackDeclarations : List CallbackDeclaration :=
  [ ⟨"OnClientGameServerDeny", "ClientGameServerDeny_t", "OnClientGameServerDenyCallback"⟩,
    ⟨"OnDurationControl", "DurationControl_t", "OnDurationControlCallback"⟩,
    ⟨"OnEncryptedAppTicketResponse", "EncryptedAppTicketResponse_t",
      "OnEncryptedAppTicketResponseCallback"⟩,
    ⟨"OnGameWeb", "GameWebCallback_t", "OnGameWebCallback"⟩,
    ⟨"OnGetAuthSessionTicketResponse", "GetAuthSessionTicketResponse_t",
      "OnGetAuthSessionTicketResponseCallback"⟩,
    ⟨"OnIPCFailure", "IPCFailure_t", "OnIPCFailureCallback"⟩,
    ⟨"OnLicensesUpdated", "LicensesUpdated_t", "OnLicensesUpdatedCallback"⟩,
    ⟨"OnMicroTxnAuthorizationResponse", "MicroTxnAuthorizationResponse_t",
      "OnMicroTxnAuthorizationResponseCallback"⟩,
    ⟨"OnSteamServerConnectFailure", "SteamServerConnectFailure_t",
      "OnSteamServerConnectFailureCallback"⟩,
    ⟨"OnSteamServersConnected", "SteamServersConnected_t", "OnSteamServersConnectedCallback"⟩,
    ⟨"OnSteamServersDisconnected", "SteamServersDisconnected_t",
      "OnSteamServersDisconnectedCallback"⟩,
    ⟨"OnStoreAuthURLResponse", "StoreAuthURLResponse_t", "OnStoreAuthURLResponseCallback"⟩,
    ⟨"OnValidateAuthTicketResponse", "ValidateAuthTicketResponse_t",
      "OnValidateAuthTicketResponseCallback"⟩ ]

/-- The delegate property carries the callback: its display name is "On"
followed by `X`, where the callback struct is `X_t`. -/
def DelegateProperty.isFor (d : DelegateProperty) (c : CallbackDeclaration) : Bool :=
  decide (d.displayName ++ "_t" = "On" ++ c.callback_type)

/-- A field of a payload: its declared type and its name. -/
structure PayloadField where
  type : String
  name : String
deriving DecidableEq, Repr

/-- A `DECLARE_DYNAMIC_MULTICAST_DELEGATE...` line: the delegate type and its
payload parameters, in order. -/
structure DelegateDeclaration where
  name : String
  params : List PayloadField
deriving DecidableEq, Repr

/-- An SDK callback struct: its name and its data members, in order. -/
structure CallbackStruct where
  name : String
  fields : List PayloadField
deriving DecidableEq, Repr

/-- The delegate declarations of SteamGameServer.h (lines 13 to 20), in source
order. -/
def USteamGameServer.delegateDeclarations : List DelegateDeclaration :=
  [ ⟨"FOnAssociateWithClanResultDelegate", [⟨"ESteamResult", "Result"⟩]⟩,
    ⟨"FOnComputeNewPlayerCompatibilityResultDelegate",
      [⟨"ESteamResult", "Result"⟩, ⟨"int32", "PlayersThatDontLikeCandidate"⟩,
        ⟨"int32", "PlayersThatDoesntLikeCandidate"⟩,
        ⟨"int32", "ClanPlayersThatDontLikeCandidate"⟩, ⟨"FSteamID", "SteamIDCandidate"⟩]⟩,
    ⟨"FOnGSClientApproveDelegate", [⟨"FSteamID", "SteamID"⟩, ⟨"FSteamID", "OwnerSteamID"⟩]⟩,
    ⟨"FOnGSClientDenyDelegate",
      [⟨"FSteamID", "SteamID"⟩, ⟨"ESteamDenyReason", "DenyReason"⟩,
        ⟨"FString", "OptionalText"⟩]⟩,
    ⟨"FOnGSClientGroupStatusDelegate",
      [⟨"FSteamID", "SteamIDUser"⟩, ⟨"FSteamID", "SteamIDGroup"⟩, ⟨"bool", "bMember"⟩,
        ⟨"bool", "bOfficer"⟩]⟩,
    ⟨"FOnGSClientKickDelegate", [⟨"FSteamID", "SteamID"⟩, ⟨"ESteamDenyReason", "DenyReason"⟩]⟩,
    ⟨"FOnGSPolicyResponseDelegate", [⟨"bool", "bSecure"⟩]⟩ ]

/-- The delegate declarations of SteamUser.h (lines 13 to 25), in source order. -/
def USteamUser.delegateDeclarations : List DelegateDeclaration :=
  [ ⟨"FOnClientGameServerDenyDelegate",
      [⟨"int32", "AppID"⟩, ⟨"FString", "GameServerIP"⟩, ⟨"int32", "GameServerPort"⟩,
        ⟨"bool", "bSecure"⟩, ⟨"ESteamDenyReason", "Reason"⟩]⟩,
    ⟨"FOnDurationControlDelegate",
      [⟨"ESteamResult", "Result"⟩, ⟨"int32", "AppId"⟩, ⟨"bool", "bApplicable"⟩,
        ⟨"int32", "csecsLast5h"⟩, ⟨"ESteamDurationControlProgress", "Progress"⟩,
        ⟨"ESteamDurationControlNotification", "Notification"⟩]⟩,
    ⟨"FOnEncryptedAppTicketResponseDelegate", [⟨"ESteamResult", "Result"⟩]⟩,
    ⟨"FOnGameWebCallbackDelegate", [⟨"FString", "URL"⟩]⟩,
    ⟨"FOnGetAuthSessionTicketResponseDelegate",
      [⟨"FHAuthTicket", "AuthTicket"⟩, ⟨"ESteamResult", "Result"⟩]⟩,
    ⟨"FOnIPCFailureDelegate", [⟨"ESteamFailureType", "FailureType"⟩]⟩,
    ⟨"FOnLicensesUpdatedDelegate", []⟩,
    ⟨"FOnMicroTxnAuthorizationResponseDelegate",
      [⟨"int32", "AppID"⟩, ⟨"FString", "OrderID"⟩, ⟨"bool", "bAuthorized"⟩]⟩,
    ⟨"FOnSteamServerConnectFailureDelegate",
      [⟨"ESteamResult", "Result"⟩, ⟨"bool", "bStillRetrying"⟩]⟩,
    ⟨"FOnSteamServersConnectedDelegate", []⟩,
    ⟨"FOnSteamServersDisconnectedDelegate", [⟨"ESteamResult", "Result"⟩]⟩,
    ⟨"FOnStoreAuthURLResponseDelegate", [⟨"FString", "URL"⟩]⟩,
    ⟨"FOnValidateAuthTicketResponseDelegate",
      [⟨"FSteamID", "SteamID"⟩, ⟨"ESteamAuthSessionResponse", "AuthSessionResponse"⟩,
        ⟨"FSteamID", "OwnerSteamID"⟩]⟩ ]

/-- Modelled from the spec: the SDK headers are not among the sources. The
callback structs named by the callback declarations of the two classes, with
their data members as in the vendor's API reference (ISteamGameServer and
ISteamUser), in the order of the callback declarations. -/
def sdkCallbackStructs : List CallbackStruct :=
  [ ⟨"AssociateWithClanResult_t", [⟨"EResult", "m_eResult"⟩]⟩,
    ⟨"ComputeNewPlayerCompatibilityResult_t",
      [⟨"EResult", "m_eResult"⟩, ⟨"int", "m_cPlayersThatDontLikeCandidate"⟩,
        ⟨"int", "m_cPlayersThatCandidateDoesntLike"⟩,
        ⟨"int", "m_cClanPlayersThatDontLikeCandidate"⟩, ⟨"CSteamID", "m_SteamIDCandidate"⟩]⟩,
    ⟨"GSClientApprove_t", [⟨"CSteamID", "m_SteamID"⟩, ⟨"CSteamID", "m_OwnerSteamID"⟩]⟩,
    ⟨"GSClientDeny_t",
      [⟨"CSteamID", "m_SteamID"⟩, ⟨"EDenyReason", "m_eDenyReason"⟩,
        ⟨"char [128]", "m_rgchOptionalText"⟩]⟩,
    ⟨"GSClientGroupStatus_t",
      [⟨"CSteamID", "m_SteamIDUser"⟩, ⟨"CSteamID", "m_SteamIDGroup"⟩, ⟨"bool", "m_bMember"⟩,
        ⟨"bool", "m_bOfficer"⟩]⟩,
    ⟨"GSClientKick_t", [⟨"CSteamID", "m_SteamID"⟩, ⟨"EDenyReason", "m_eDenyReason"⟩]⟩,
    ⟨"GSPolicyResponse_t", [⟨"uint8", "m_bSecure"⟩]⟩,
    ⟨"ClientGameServerDeny_t",
      [⟨"uint32", "m_uAppID"⟩, ⟨"uint32", "m_unGameServerIP"⟩,
        ⟨"uint16", "m_usGameServerPort"⟩, ⟨"uint16", "m_bSecure"⟩, ⟨"uint32", "m_uReason"⟩]⟩,
    ⟨"DurationControl_t",
      [⟨"EResult", "m_eResult"⟩, ⟨"AppId_t", "m_appid"⟩, ⟨"bool", "m_bApplicable"⟩,
        ⟨"int32", "m_csecsLast5h"⟩, ⟨"EDurationControlProgress", "m_progress"⟩,
        ⟨"EDurationControlNotification", "m_notification"⟩]⟩,
    ⟨"EncryptedAppTicketResponse_t", [⟨"EResult", "m_eResult"⟩]⟩,
    ⟨"GameWebCallback_t", [⟨"char [256]", "m_szURL"⟩]⟩,
    ⟨"GetAuthSessionTicketResponse_t",
      [⟨"HAuthTicket", "m_hAuthTicket"⟩, ⟨"EResult", "m_eResult"⟩]⟩,
    ⟨"IPCFailure_t", [⟨"uint8", "m_eFailureType"⟩]⟩,
    ⟨"LicensesUpdated_t", []⟩,
    ⟨"MicroTxnAuthorizationResponse_t",
      [⟨"uint32", "m_unAppID"⟩, ⟨"uint64", "m_ulOrderID"⟩, ⟨"uint8", "m_bAuthorized"⟩]⟩,
    ⟨"SteamServerConnectFailure_t", [⟨"EResult", "m_eResult"⟩, ⟨"bool", "m_bStillRetrying"⟩]⟩,
    ⟨"SteamServersConnected_t", []⟩,
    ⟨"SteamServersDisconnected_t", [⟨"EResult", "m_eResult"⟩]⟩,
    ⟨"StoreAuthURLResponse_t", [⟨"char [512]", "m_szURL"⟩]⟩,
    ⟨"ValidateAuthTicketResponse_t",
      [⟨"CSteamID", "m_SteamID"⟩, ⟨"EAuthSessionResponse", "m_eAuthSessionResponse"⟩,
        ⟨"CSteamID", "m_OwnerSteamID"⟩]⟩ ]

/-- The delegate republishes the callback struct: the delegate type is "FOn"
followed by `X` and "Delegate", where the struct is `X_t`. -/
def DelegateDeclaration.republishes (d : DelegateDeclaration) (c : CallbackStruct) : Bool :=
  decide ("FOn" ++ String.mk (c.name.toList.take (c.name.length - 2)) ++ "Delegate" = d.name)

/-- An ASCII letter in lower case. -/
def lowerAscii (c : Char) : Char :=
  if 'A' ≤ c ∧ c ≤ 'Z' then Char.ofNat (c.toNat + 32) else c

/-- Whether a character is a lower-case ASCII letter. -/
def isLowerAscii (c : Char) : Bool := decide ('a' ≤ c ∧ c ≤ 'z')

/-- An SDK member name without its member prefix `m_`. -/
def withoutMemberPrefix (sdkField : String) : List Char :=
  match sdkField.toList with
  | 'm' :: '_' :: rest => rest
  | cs => cs

/-- The "field-for-field renaming" of the spec, as the declarations practise it:
a delegate parameter is named after an SDK member when it is the member's name
without the prefix `m_`, or without `m_` and the lower-case type prefix that
follows it (`e`, `c`, `un`, `sz`, ...), letter case aside. -/
def namedAfter (delegateParam sdkField : String) : Bool :=
  decide (delegateParam.toList.map lowerAscii = (withoutMemberPrefix sdkField).map lowerAscii) ||
  decide (delegateParam.toList.map lowerAscii
    = ((withoutMemberPrefix sdkField).dropWhile isLowerAscii).map lowerAscii)

/-- The payload positions at which a delegate parameter is not named after the
member of the struct it republishes: delegate, position (from 0), parameter
name, member name. -/
def misnamedPayloadFields (ds : List DelegateDeclaration) (cs : List CallbackStruct) :
    List (String × Nat × String × String) :=
  ds.flatMap fun d => (cs.filter (fun c => d.republishes c)).flatMap fun c =>
    ((d.params.zip c.fields).enum.filter (fun e => !(namedAfter e.2.1.name e.2.2.name))).map
      fun e => (d.name, e.1, e.2.1.name, e.2.2.name)

/-- Modelled from the spec: the callback handlers are defined in
SteamGameServer.cpp and SteamUser.cpp, which are not among the sources. By the
spec "every delegate is a direct republish of a vendored SDK callback payload
with field-for-field renaming": the handler broadcasts the values of the
struct's members, in order, each under the delegate's parameter name at the same
position. -/
def DelegateDeclaration.republish {V : Type} (d : DelegateDeclaration) (payload : List V) :
    List (String × V) :=
  (d.params.map (fun p => p.name)).zip payload

/-! ## Theorems -/

/-- Sanity check of the string model on a text with characters of all four
encoded lengths. -/
theorem TCHAR_TO_UTF8_sample :
    TCHAR_TO_UTF8 [72, 233, 8364, 128512]
      = [72, 195, 169, 226, 130, 172, 240, 159, 152, 128, 0] := by
  decide

/-- C1: for every `SpectatorPort` from 0 to 65535,
`USteamGameServer::SetSpectatorPort` makes the SDK call
`SetSpectatorPort` with exactly that port number (the conversion to `uint16` and
the clamp leave a valid port as it is), against every SDK and from every SDK
state. -/
theorem SetSpectatorPort_valid_port_unchanged (SpectatorPort : Int)
    (h0 : 0 ≤ SpectatorPort) (h1 : SpectatorPort ≤ 65535) (sdk : Sdk) (s : sdk.State) :
    ((USteamGameServer.SetSpectatorPort SpectatorPort).run sdk s).calls
      = [SdkCall.gameServer (ISteamGameServer.SetSpectatorPort SpectatorPort.toNat)] := by
  have h : FMath.Clamp_uint16 SpectatorPort 0 65535 = SpectatorPort.toNat := by
    unfold FMath.Clamp_uint16 FMath.Clamp toUInt16
    split_ifs <;> omega
  simp [USteamGameServer.SetSpectatorPort, Prog.run, h]

/-- C1, instantiated at the port 27020 and the sample SDK. -/
theorem SetSpectatorPort_valid_port_unchanged_witness :
    (0 : Int) ≤ 27020 ∧ (27020 : Int) ≤ 65535 ∧
    ((USteamGameServer.SetSpectatorPort 27020).run sampleSdk (0 : Nat)).calls
      = [SdkCall.gameServer (ISteamGameServer.SetSpectatorPort (27020 : Int).toNat)] :=
  ⟨by decide, by decide,
    SetSpectatorPort_valid_port_unchanged 27020 (by decide) (by decide) sampleSdk (0 : Nat)⟩

/-- C2: every inline wrapper method of `USteamGameServer` (31 of them) and of
`USteamUser` (20 of them), on every argument, against every SDK and from every
SDK state, makes exactly one SDK invocation, and that invocation is of the
entry point with the wrapper's own name on the interface the class wraps. -/
theorem inline_wrapper_makes_exactly_one_sdk_call :
    USteamGameServer.inlineWrappers.length = 31 ∧ USteamUser.inlineWrappers.length = 20 ∧
    ∀ w ∈ USteamGameServer.inlineWrappers ++ USteamUser.inlineWrappers,
      ∀ (a : w.Args) (sdk : Sdk) (s : sdk.State),
        ((w.body a).run sdk s).calls.map SdkCall.entryPoint = [(w.cls, w.name)] := by
  refine ⟨rfl, rfl, ?_⟩
  intro w hw
  simp only [USteamGameServer.inlineWrappers, USteamUser.inlineWrappers, List.cons_append,
    List.nil_append, List.mem_cons, List.mem_singleton] at hw
  rcases hw with h | h | h | h | h | h | h | h | h | h | h | h | h | h | h | h | h | h | h | h |
    h | h | h | h | h | h | h | h | h | h | h | h | h | h | h | h | h | h | h | h | h | h | h |
    h | h | h | h | h | h | h | h | h
  all_goals first
    | (subst h; intro a sdk s; rfl)
    | simp at h

/-- C2, instantiated at `USteamGameServer::AssociateWithClan`, the first wrapper
of the list, and the sample SDK. -/
theorem inline_wrapper_makes_exactly_one_sdk_call_witness :
    ((USteamGameServer.AssociateWithClan (FSteamID.mk 5)).run sampleSdk (0 : Nat)).calls.map
      SdkCall.entryPoint = [(SdkInterface.SteamGameServer, "AssociateWithClan")] :=
  inline_wrapper_makes_exactly_one_sdk_call.2.2
    ⟨.SteamGameServer, "AssociateWithClan", FSteamID, _, USteamGameServer.AssociateWithClan⟩
    (List.mem_cons_self _ _) (FSteamID.mk 5) sampleSdk (0 : Nat)

/-- C3: each of the ten boolean wrappers returns true exactly when the SDK call
it forwards to returned true, against every SDK and from every SDK state. -/
theorem boolean_wrappers_return_sdk_flag (sdk : Sdk) (s : sdk.State)
    (SteamIDUser SteamIDGroup : FSteamID) :
    ((USteamGameServer.BLoggedOn.run sdk s).result = true
      ↔ (sdk.exec (.gameServer .BLoggedOn) s).1 = true) ∧
    ((USteamGameServer.BSecure.run sdk s).result = true
      ↔ (sdk.exec (.gameServer .BSecure) s).1 = true) ∧
    (((USteamGameServer.RequestUserGroupStatus SteamIDUser SteamIDGroup).run sdk s).result = true
      ↔ (sdk.exec (.gameServer (.RequestUserGroupStatus (CSteamID.mk SteamIDUser.Value)
          (CSteamID.mk SteamIDGroup.Value))) s).1 = true) ∧
    ((USteamGameServer.WasRestartRequested.run sdk s).result = true
      ↔ (sdk.exec (.gameServer .WasRestartRequested) s).1 = true) ∧
    ((USteamUser.BIsBehindNAT.run sdk s).result = true
      ↔ (sdk.exec (.user .BIsBehindNAT) s).1 = true) ∧
    ((USteamUser.BIsPhoneIdentifying.run sdk s).result = true
      ↔ (sdk.exec (.user .BIsPhoneIdentifying) s).1 = true) ∧
    ((USteamUser.BIsPhoneRequiringVerification.run sdk s).result = true
      ↔ (sdk.exec (.user .BIsPhoneRequiringVerification) s).1 = true) ∧
    ((USteamUser.BIsPhoneVerified.run sdk s).result = true
      ↔ (sdk.exec (.user .BIsPhoneVerified) s).1 = true) ∧
    ((USteamUser.BIsTwoFactorEnabled.run sdk s).result = true
      ↔ (sdk.exec (.user .BIsTwoFactorEnabled) s).1 = true) ∧
    ((USteamUser.BLoggedOn.run sdk s).result = true
      ↔ (sdk.exec (.user .BLoggedOn) s).1 = true) :=
  ⟨Iff.rfl, Iff.rfl, Iff.rfl, Iff.rfl, Iff.rfl, Iff.rfl, Iff.rfl, Iff.rfl, Iff.rfl, Iff.rfl⟩

/-- The cast of an `EBeginAuthSessionResult` to the engine enumeration keeps the
numeric value. -/
theorem toUInt8_EBeginAuthSessionResult (c : EBeginAuthSessionResult) :
    ((toUInt8 c.toInt : Nat) : Int) = c.toInt := by
  cases c <;> rfl

/-- The cast of an `EUserHasLicenseForAppResult` to the engine enumeration keeps
the numeric value. -/
theorem toUInt8_EUserHasLicenseForAppResult (c : EUserHasLicenseForAppResult) :
    ((toUInt8 c.toInt : Nat) : Int) = c.toInt := by
  cases c <;> rfl

/-- The cast of an `EVoiceResult` to the engine enumeration keeps the numeric
value. -/
theorem toUInt8_EVoiceResult (c : EVoiceResult) :
    ((toUInt8 c.toInt : Nat) : Int) = c.toInt := by
  cases c <;> rfl

/-- C4: `USteamUser::BeginAuthSession`, `USteamUser::UserHasLicenseForApp` and
`USteamGameServer::UserHasLicenseForApp` return a value whose number is the
number of the result code the SDK answered, whichever code that is. Hence two
runs return the same value exactly when the SDK answered the same code, and the
value is the success number 0 exactly when the SDK answered its success code. -/
theorem result_code_wrappers_keep_numeric_value (sdk : Sdk) (s : sdk.State)
    (sdk2 : Sdk) (s2 : sdk2.State) (Ticket : TArray_uint8) (SteamID : FSteamID) (AppID : Int) :
    -- USteamUser::BeginAuthSession
    ((((USteamUser.BeginAuthSession Ticket SteamID).run sdk s).result.value : Int)
        = (sdk.exec (.user (.BeginAuthSession Ticket Ticket.length
            (CSteamID.mk SteamID.Value))) s).1.toInt) ∧
    (((USteamUser.BeginAuthSession Ticket SteamID).run sdk s).result
        = ((USteamUser.BeginAuthSession Ticket SteamID).run sdk2 s2).result
      ↔ (sdk.exec (.user (.BeginAuthSession Ticket Ticket.length
            (CSteamID.mk SteamID.Value))) s).1
        = (sdk2.exec (.user (.BeginAuthSession Ticket Ticket.length
            (CSteamID.mk SteamID.Value))) s2).1) ∧
    (((USteamUser.BeginAuthSession Ticket SteamID).run sdk s).result.value = 0
      ↔ (sdk.exec (.user (.BeginAuthSession Ticket Ticket.length
            (CSteamID.mk SteamID.Value))) s).1
        = EBeginAuthSessionResult.k_EBeginAuthSessionResultOK) ∧
    -- USteamUser::UserHasLicenseForApp
    ((((USteamUser.UserHasLicenseForApp SteamID AppID).run sdk s).result.value : Int)
        = (sdk.exec (.user (.UserHasLicenseForApp (CSteamID.mk SteamID.Value)
            (toUInt32 AppID))) s).1.toInt) ∧
    (((USteamUser.UserHasLicenseForApp SteamID AppID).run sdk s).result
        = ((USteamUser.UserHasLicenseForApp SteamID AppID).run sdk2 s2).result
      ↔ (sdk.exec (.user (.UserHasLicenseForApp (CSteamID.mk SteamID.Value)
            (toUInt32 AppID))) s).1
        = (sdk2.exec (.user (.UserHasLicenseForApp (CSteamID.mk SteamID.Value)
            (toUInt32 AppID))) s2).1) ∧
    (((USteamUser.UserHasLicenseForApp SteamID AppID).run sdk s).result.value = 0
      ↔ (sdk.exec (.user (.UserHasLicenseForApp (CSteamID.mk SteamID.Value)
            (toUInt32 AppID))) s).1
        = EUserHasLicenseForAppResult.k_EUserHasLicenseResultHasLicense) ∧
    -- USteamGameServer::UserHasLicenseForApp
    ((((USteamGameServer.UserHasLicenseForApp SteamID AppID).run sdk s).result.value : Int)
        = (sdk.exec (.gameServer (.UserHasLicenseForApp (CSteamID.mk SteamID.Value)
            (toUInt32 AppID))) s).1.toInt) ∧
    (((USteamGameServer.UserHasLicenseForApp SteamID AppID).run sdk s).result
        = ((USteamGameServer.UserHasLicenseForApp SteamID AppID).run sdk2 s2).result
      ↔ (sdk.exec (.gameServer (.UserHasLicenseForApp (CSteamID.mk SteamID.Value)
            (toUInt32 AppID))) s).1
        = (sdk2.exec (.gameServer (.UserHasLicenseForApp (CSteamID.mk SteamID.Value)
            (toUInt32 AppID))) s2).1) ∧
    (((USteamGameServer.UserHasLicenseForApp SteamID AppID).run sdk s).result.value = 0
      ↔ (sdk.exec (.gameServer (.UserHasLicenseForApp (CSteamID.mk SteamID.Value)
            (toUInt32 AppID))) s).1
        = EUserHasLicenseForAppResult.k_EUserHasLicenseResultHasLicense) := by
  have hB : ∀ a b : EBeginAuthSessionResult,
      (ESteamBeginAuthSessionResult.mk (toUInt8 a.toInt)
        = ESteamBeginAuthSessionResult.mk (toUInt8 b.toInt) ↔ a = b) := by
    intro a b; cases a <;> cases b <;> decide
  have hB0 : ∀ a : EBeginAuthSessionResult,
      (toUInt8 a.toInt = 0 ↔ a = EBeginAuthSessionResult.k_EBeginAuthSessionResultOK) := by
    intro a; cases a <;> decide
  have hL : ∀ a b : EUserHasLicenseForAppResult,
      (ESteamUserHasLicenseForAppResult.mk (toUInt8 a.toInt)
        = ESteamUserHasLicenseForAppResult.mk (toUInt8 b.toInt) ↔ a = b) := by
    intro a b; cases a <;> cases b <;> decide
  have hL0 : ∀ a : EUserHasLicenseForAppResult,
      (toUInt8 a.toInt = 0
        ↔ a = EUserHasLicenseForAppResult.k_EUserHasLicenseResultHasLicense) := by
    intro a; cases a <;> decide
  exact ⟨toUInt8_EBeginAuthSessionResult _, hB _ _, hB0 _,
    toUInt8_EUserHasLicenseForAppResult _, hL _ _, hL0 _,
    toUInt8_EUserHasLicenseForAppResult _, hL _ _, hL0 _⟩

/-- C5: let `id` be the `FSteamID` that the wrapper `GetSteamID` (of either
class) returns when the SDK's `GetSteamID` yields an id whose 64-bit
representation is `x`. Then `id.Value = x`, and handing `id` to `EndAuthSession`,
`AssociateWithClan`, `RequestUserGroupStatus` (either position),
`UserHasLicenseForApp` or `BeginAuthSession` makes the SDK receive the id whose
64-bit representation is `x` again. This holds for every natural number `x`, so
for all 2^64 identifiers. -/
theorem steam_id_round_trip (x : Nat) (sdk : Sdk) (s : sdk.State) (id : FSteamID)
    (h : ((sdk.exec (.gameServer .GetSteamID) s).1.ConvertToUint64 = x
          ∧ id = (USteamGameServer.GetSteamID.run sdk s).result)
        ∨ ((sdk.exec (.user .GetSteamID) s).1.ConvertToUint64 = x
          ∧ id = (USteamUser.GetSteamID.run sdk s).result)) :
    id.Value = x ∧
    ∀ (sdk2 : Sdk) (s2 : sdk2.State) (other : FSteamID) (AppID : Int) (Ticket : TArray_uint8),
      ((USteamGameServer.EndAuthSession id).run sdk2 s2).calls
        = [.gameServer (.EndAuthSession (CSteamID.mk x))] ∧
      ((USteamUser.EndAuthSession id).run sdk2 s2).calls
        = [.user (.EndAuthSession (CSteamID.mk x))] ∧
      ((USteamGameServer.AssociateWithClan id).run sdk2 s2).calls
        = [.gameServer (.AssociateWithClan (CSteamID.mk x))] ∧
      ((USteamGameServer.RequestUserGroupStatus id other).run sdk2 s2).calls
        = [.gameServer (.RequestUserGroupStatus (CSteamID.mk x) (CSteamID.mk other.Value))] ∧
      ((USteamGameServer.RequestUserGroupStatus other id).run sdk2 s2).calls
        = [.gameServer (.RequestUserGroupStatus (CSteamID.mk other.Value) (CSteamID.mk x))] ∧
      ((USteamGameServer.UserHasLicenseForApp id AppID).run sdk2 s2).calls
        = [.gameServer (.UserHasLicenseForApp (CSteamID.mk x) (toUInt32 AppID))] ∧
      ((USteamUser.UserHasLicenseForApp id AppID).run sdk2 s2).calls
        = [.user (.UserHasLicenseForApp (CSteamID.mk x) (toUInt32 AppID))] ∧
      ((USteamUser.BeginAuthSession Ticket id).run sdk2 s2).calls
        = [.user (.BeginAuthSession Ticket Ticket.length (CSteamID.mk x))] := by
  have hv : id.Value = x := by
    rcases h with ⟨hx, hid⟩ | ⟨hx, hid⟩
    · rw [hid]; exact hx
    · rw [hid]; exact hx
  subst hv
  exact ⟨rfl, fun _ _ _ _ _ => ⟨rfl, rfl, rfl, rfl, rfl, rfl, rfl, rfl⟩⟩

/-- C5, instantiated at the id the sample SDK yields for the user in its
initial state. -/
theorem steam_id_round_trip_witness :
    (USteamUser.GetSteamID.run sampleSdk (0 : Nat)).result.Value = 76561197960287930 ∧
    ((USteamUser.EndAuthSession (USteamUser.GetSteamID.run sampleSdk (0 : Nat)).result).run
        sampleSdk (1 : Nat)).calls
      = [.user (.EndAuthSession (CSteamID.mk 76561197960287930))] :=
  ⟨(steam_id_round_trip 76561197960287930 sampleSdk (0 : Nat)
      (USteamUser.GetSteamID.run sampleSdk (0 : Nat)).result (Or.inr ⟨rfl, rfl⟩)).1,
    ((steam_id_round_trip 76561197960287930 sampleSdk (0 : Nat)
      (USteamUser.GetSteamID.run sampleSdk (0 : Nat)).result (Or.inr ⟨rfl, rfl⟩)).2
        sampleSdk (1 : Nat) (FSteamID.mk 0) 0 []).2.1⟩

/-- C6: for every byte array `Ticket` (the empty one included) and every
`SteamID`, `USteamUser::BeginAuthSession` makes the one SDK call
`BeginAuthSession` with a buffer holding exactly the elements of `Ticket` in
order, the count `Ticket.length`, and the id whose 64-bit representation is
`SteamID.Value`. -/
theorem BeginAuthSession_passes_ticket_and_id (Ticket : TArray_uint8) (SteamID : FSteamID)
    (sdk : Sdk) (s : sdk.State) :
    ∃ (pAuthTicket : List Nat) (cbAuthTicket : Int) (steamID : CSteamID),
      ((USteamUser.BeginAuthSession Ticket SteamID).run sdk s).calls
        = [.user (.BeginAuthSession pAuthTicket cbAuthTicket steamID)] ∧
      pAuthTicket = Ticket ∧
      cbAuthTicket = (Ticket.length : Int) ∧
      pAuthTicket.take cbAuthTicket.toNat = Ticket ∧
      steamID.ConvertToUint64 = SteamID.Value :=
  ⟨Ticket, (Ticket.length : Int), CSteamID.mk SteamID.Value, rfl, rfl, rfl,
    by simp, rfl⟩

/-- C7: for every integer `v` (so for every `int32`, zero, the negative values
and `INT32_MAX` included), `SetBotPlayerCount(v)`, `SetMaxPlayerCount(v)` and
`SetHeartbeatInterval(v)` of `USteamGameServer` each make the one SDK call of
the same name with exactly `v`. -/
theorem integer_setters_pass_value_unchanged (v : Int) (sdk : Sdk) (s : sdk.State) :
    ((USteamGameServer.SetBotPlayerCount v).run sdk s).calls
      = [.gameServer (.SetBotPlayerCount v)] ∧
    ((USteamGameServer.SetMaxPlayerCount v).run sdk s).calls
      = [.gameServer (.SetMaxPlayerCount v)] ∧
    ((USteamGameServer.SetHeartbeatInterval v).run sdk s).calls
      = [.gameServer (.SetHeartbeatInterval v)] :=
  ⟨rfl, rfl, rfl⟩

set_option maxRecDepth 8192

/-- Decoding a one-byte form. -/
theorem utf8Decode_one (c : Nat) (h : c < 128) (rest : List Nat) :
    utf8Decode (c :: rest) = (utf8Decode rest).map (fun cs => c :: cs) := by
  rw [utf8Decode.eq_def]; simp only [h, if_true]

/-- Decoding the two-byte form of a code point from 0x80 to 0x7FF. -/
theorem utf8Decode_two (c : Nat) (h1 : 128 ≤ c) (h2 : c < 2048) (rest : List Nat) :
    utf8Decode ((192 + c / 64) :: (128 + c % 64) :: rest)
      = (utf8Decode rest).map (fun cs => c :: cs) := by
  rw [utf8Decode.eq_def]
  have e : (192 + c / 64 - 192) * 64 + (128 + c % 64 - 128) = c := by omega
  have a1 : ¬ (192 + c / 64 < 128) := by omega
  have a2 : ¬ (192 + c / 64 < 192) := by omega
  have a3 : 192 + c / 64 < 224 := by omega
  have a4 : (128 ≤ 128 + c % 64 ∧ 128 + c % 64 < 192) := by omega
  have a5 : ¬ (c < 128) := by omega
  simp only [a1, a2, a3, a4, e, a5, if_true, if_false, and_self, not_true_eq_false]

/-- Decoding the three-byte form of a scalar value from 0x800 to 0xFFFF. -/
theorem utf8Decode_three (c : Nat) (h1 : 2048 ≤ c) (h2 : c < 65536) (hs : isScalarValue c)
    (rest : List Nat) :
    utf8Decode ((224 + c / 4096) :: (128 + c / 64 % 64) :: (128 + c % 64) :: rest)
      = (utf8Decode rest).map (fun cs => c :: cs) := by
  rw [utf8Decode.eq_def]
  have e : (224 + c / 4096 - 224) * 4096 + (128 + c / 64 % 64 - 128) * 64 + (128 + c % 64 - 128)
      = c := by omega
  have a1 : ¬ (224 + c / 4096 < 128) := by omega
  have a2 : ¬ (224 + c / 4096 < 192) := by omega
  have a3 : ¬ (224 + c / 4096 < 224) := by omega
  have a4 : 224 + c / 4096 < 240 := by omega
  have a5 : (128 ≤ 128 + c / 64 % 64 ∧ 128 + c / 64 % 64 < 192) := by omega
  have a6 : (128 ≤ 128 + c % 64 ∧ 128 + c % 64 < 192) := by omega
  have a7 : ¬ (c < 2048) := by omega
  simp only [a1, a2, a3, a4, a5, a6, e, a7, hs, if_true, if_false, and_self, not_true_eq_false]

/-- Decoding the four-byte form of a scalar value from 0x10000 on. -/
theorem utf8Decode_four (c : Nat) (h1 : 65536 ≤ c) (hs : isScalarValue c)
    (rest : List Nat) :
    utf8Decode ((240 + c / 262144) :: (128 + c / 4096 % 64) :: (128 + c / 64 % 64)
        :: (128 + c % 64) :: rest)
      = (utf8Decode rest).map (fun cs => c :: cs) := by
  rw [utf8Decode.eq_def]
  have hlt : c < 1114112 := by unfold isScalarValue at hs; omega
  have e : (240 + c / 262144 - 240) * 262144 + (128 + c / 4096 % 64 - 128) * 4096
      + (128 + c / 64 % 64 - 128) * 64 + (128 + c % 64 - 128) = c := by omega
  have a1 : ¬ (240 + c / 262144 < 128) := by omega
  have a2 : ¬ (240 + c / 262144 < 192) := by omega
  have a3 : ¬ (240 + c / 262144 < 224) := by omega
  have a4 : ¬ (240 + c / 262144 < 240) := by omega
  have a8 : 240 + c / 262144 < 248 := by omega
  have a5 : (128 ≤ 128 + c / 4096 % 64 ∧ 128 + c / 4096 % 64 < 192) := by omega
  have a6 : (128 ≤ 128 + c / 64 % 64 ∧ 128 + c / 64 % 64 < 192) := by omega
  have a9 : (128 ≤ 128 + c % 64 ∧ 128 + c % 64 < 192) := by omega
  have a7 : ¬ (c < 65536) := by omega
  simp only [a1, a2, a3, a4, a5, a6, a8, a9, e, a7, hs, if_true, if_false, and_self, not_true_eq_false]

/-- Decoding undoes the encoding of one scalar value, whatever bytes follow. -/
theorem utf8Decode_utf8FromCodepoint (c : Nat) (hs : isScalarValue c) (rest : List Nat) :
    utf8Decode (utf8FromCodepoint c ++ rest) = (utf8Decode rest).map (fun cs => c :: cs) := by
  unfold utf8FromCodepoint
  split_ifs with h1 h2 h3
  · exact utf8Decode_one c h1 rest
  · exact utf8Decode_two c (by omega) h2 rest
  · exact utf8Decode_three c (by omega) h3 hs rest
  · exact utf8Decode_four c (by omega) hs rest

/-- Decoding undoes the encoding of a sequence of scalar values. -/
theorem utf8Decode_utf8Encode (s : List Nat) (h : ∀ c ∈ s, isScalarValue c) :
    utf8Decode (utf8Encode s) = some s := by
  induction s with
  | nil => rfl
  | cons c cs ih =>
    have hc : isScalarValue c := h c (List.mem_cons_self _ _)
    rw [utf8Encode, if_pos hc, utf8Decode_utf8FromCodepoint c hc,
      ih (fun d hd => h d (List.mem_cons_of_mem _ hd))]
    rfl

/-- The encoding of a nonzero code point has no zero byte. -/
theorem utf8FromCodepoint_ne_zero (c : Nat) (hc : c ≠ 0) : ∀ b ∈ utf8FromCodepoint c, b ≠ 0 := by
  intro b hb
  unfold utf8FromCodepoint at hb
  split_ifs at hb <;> simp at hb <;> omega

/-- The encoding of a text without NUL has no zero byte. -/
theorem utf8Encode_ne_zero (s : List Nat) (h : ∀ c ∈ s, c ≠ 0) : ∀ b ∈ utf8Encode s, b ≠ 0 := by
  induction s with
  | nil => intro b hb; simp [utf8Encode] at hb
  | cons c cs ih =>
    intro b hb
    rw [utf8Encode, List.mem_append] at hb
    rcases hb with hb | hb
    · refine utf8FromCodepoint_ne_zero _ ?_ b hb
      split_ifs
      · exact h c (List.mem_cons_self _ _)
      · decide
    · exact ih (fun d hd => h d (List.mem_cons_of_mem _ hd)) b hb

/-- Reading up to the first zero stops at a zero that follows nonzero values. -/
theorem takeWhile_ne_zero_append (l : List Nat) (h : ∀ b ∈ l, b ≠ 0) (r : List Nat) :
    (l ++ 0 :: r).takeWhile (fun b => decide (b ≠ 0)) = l := by
  induction l with
  | nil => rfl
  | cons a as ih =>
    have ha : decide (a ≠ 0) = true := decide_eq_true (h a (List.mem_cons_self _ _))
    simp only [List.cons_append, List.takeWhile_cons, ha, if_true,
      ih (fun d hd => h d (List.mem_cons_of_mem _ hd))]

/-- Reading up to the first zero keeps a sequence of nonzero values whole. -/
theorem takeWhile_ne_zero_self (l : List Nat) (h : ∀ b ∈ l, b ≠ 0) :
    l.takeWhile (fun b => decide (b ≠ 0)) = l := by
  induction l with
  | nil => rfl
  | cons a as ih =>
    have ha : decide (a ≠ 0) = true := decide_eq_true (h a (List.mem_cons_self _ _))
    simp only [List.takeWhile_cons, ha, if_true,
      ih (fun d hd => h d (List.mem_cons_of_mem _ hd))]

/-- For a text without NUL, what a reader of the converted buffer sees is the
UTF-8 encoding of the whole text. -/
theorem cstr_TCHAR_TO_UTF8 (S : FString) (h : ∀ c ∈ S, c ≠ 0) :
    cstr (TCHAR_TO_UTF8 S) = utf8Encode S := by
  unfold cstr TCHAR_TO_UTF8
  rw [takeWhile_ne_zero_self S h]
  exact takeWhile_ne_zero_append _ (utf8Encode_ne_zero S h) []
/-- C8: for every `Key` and `Value`, `USteamGameServer::SetKeyValue` makes the one
SDK call `SetKeyValue(pKey, pValue)` with `pKey` converted from `Key` and
`pValue` from `Value`, in that order. When `Key` (and likewise `Value`) consists
of Unicode scalar values other than NUL, the text the SDK reads at `pKey` is the
UTF-8 encoding of `Key`, and decoding it as UTF-8 gives `Key` back. -/
theorem SetKeyValue_passes_utf8_key_then_value (Key Value : FString)
    (sdk : Sdk) (s : sdk.State) :
    ∃ (pKey pValue : List Nat),
      ((USteamGameServer.SetKeyValue Key Value).run sdk s).calls
        = [.gameServer (.SetKeyValue pKey pValue)] ∧
      pKey = TCHAR_TO_UTF8 Key ∧ pValue = TCHAR_TO_UTF8 Value ∧
      ((∀ c ∈ Key, isScalarValue c ∧ c ≠ 0) →
        cstr pKey = utf8Encode Key ∧ utf8Decode (cstr pKey) = some Key) ∧
      ((∀ c ∈ Value, isScalarValue c ∧ c ≠ 0) →
        cstr pValue = utf8Encode Value ∧ utf8Decode (cstr pValue) = some Value) := by
  have key : ∀ S : FString, (∀ c ∈ S, isScalarValue c ∧ c ≠ 0) →
      cstr (TCHAR_TO_UTF8 S) = utf8Encode S
        ∧ utf8Decode (cstr (TCHAR_TO_UTF8 S)) = some S := by
    intro S hS
    have h1 := cstr_TCHAR_TO_UTF8 S (fun c hc => (hS c hc).2)
    exact ⟨h1, by rw [h1]; exact utf8Decode_utf8Encode S (fun c hc => (hS c hc).1)⟩
  exact ⟨TCHAR_TO_UTF8 Key, TCHAR_TO_UTF8 Value, rfl, rfl, rfl, key Key, key Value⟩

/-- C8, instantiated at the key "région" and the value "€😀" (characters of all
four encoded lengths) and the sample SDK. -/
theorem SetKeyValue_passes_utf8_key_then_value_witness :
    ∃ (pKey pValue : List Nat),
      ((USteamGameServer.SetKeyValue [114, 233, 103, 105, 111, 110] [8364, 128512]).run
          sampleSdk (0 : Nat)).calls
        = [.gameServer (.SetKeyValue pKey pValue)] ∧
      pKey = [114, 195, 169, 103, 105, 111, 110, 0] ∧
      pValue = [226, 130, 172, 240, 159, 152, 128, 0] ∧
      utf8Decode (cstr pKey) = some [114, 233, 103, 105, 111, 110] ∧
      utf8Decode (cstr pValue) = some [8364, 128512] := by
  obtain ⟨pKey, pValue, hc, hk, hv, h1, h2⟩ :=
    SetKeyValue_passes_utf8_key_then_value [114, 233, 103, 105, 111, 110] [8364, 128512]
      sampleSdk (0 : Nat)
  exact ⟨pKey, pValue, hc, hk.trans (by decide), hv.trans (by decide),
    (h1 (by decide)).2, (h2 (by decide)).2⟩

/-- C9: `USteamUser::TerminateGameConnection` makes the one SDK call
`TerminateGameConnection(a, q)` where, for every `int32` `IPServer`, `a` is the
unsigned 32-bit number with the bit pattern of `IPServer` (that is `IPServer`
modulo 2^32: `IPServer` itself when non-negative, `IPServer + 2^32` otherwise),
and where `q = PortServer` whenever `0 ≤ PortServer ≤ 65535`. -/
theorem TerminateGameConnection_passes_bits (IPServer PortServer : Int)
    (hIP : isInt32 IPServer) (sdk : Sdk) (s : sdk.State) :
    ∃ (a q : Nat),
      ((USteamUser.TerminateGameConnection IPServer PortServer).run sdk s).calls
        = [.user (.TerminateGameConnection a q)] ∧
      a < 4294967296 ∧
      (a : Int) = IPServer % 4294967296 ∧
      (a : Int) = (if 0 ≤ IPServer then IPServer else IPServer + 4294967296) ∧
      toInt32 (a : Int) = IPServer ∧
      (0 ≤ PortServer ∧ PortServer ≤ 65535 → (q : Int) = PortServer) := by
  refine ⟨toUInt32 IPServer, toUInt16 PortServer, rfl, ?_, ?_, ?_, ?_, ?_⟩
  · unfold toUInt32; omega
  · unfold toUInt32; omega
  · unfold toUInt32 isInt32 at *; split_ifs <;> omega
  · unfold toUInt32 toInt32 isInt32 at *; split_ifs <;> omega
  · unfold toUInt16; omega

/-- C9, instantiated at the address 192.168.0.1 (as an `int32`, negative) and the
port 27015. -/
theorem TerminateGameConnection_passes_bits_witness :
    isInt32 (-1062731775) ∧
    ∃ (a q : Nat),
      ((USteamUser.TerminateGameConnection (-1062731775) 27015).run sampleSdk (0 : Nat)).calls
        = [.user (.TerminateGameConnection a q)] ∧
      a < 4294967296 ∧
      (a : Int) = (-1062731775 : Int) % 4294967296 ∧
      (a : Int) = (if (0 : Int) ≤ -1062731775 then (-1062731775 : Int)
        else -1062731775 + 4294967296) ∧
      toInt32 (a : Int) = -1062731775 ∧
      ((0 : Int) ≤ 27015 ∧ (27015 : Int) ≤ 65535 → (q : Int) = 27015) :=
  ⟨by decide,
    TerminateGameConnection_passes_bits (-1062731775) 27015 (by decide) sampleSdk (0 : Nat)⟩

/-- The conversion of an `int32` to `uint32` is undone by reading the pattern as
an `int32`. -/
theorem toInt32_toUInt32 (z : Int) (hz : isInt32 z) : toInt32 (toUInt32 z : Nat) = z := by
  unfold toInt32 toUInt32 isInt32 at *
  split_ifs <;> omega

/-- Every 32-bit pattern is the conversion of the `int32` that reads it. -/
theorem toUInt32_toInt32 (a : Nat) (ha : a < 4294967296) :
    toUInt32 (toInt32 (a : Int)) = a ∧ isInt32 (toInt32 (a : Int)) := by
  unfold toInt32 toUInt32 isInt32
  split_ifs <;> omega

/-- C10: `USteamUser::GetAvailableVoice` makes the one SDK call
`GetAvailableVoice` and returns the value with the number of the result code the
SDK answered, whichever code that is and whether or not the SDK stored a size
(so it is the success number 0 exactly when the SDK answered
`k_EVoiceResultOK`). When the SDK stored the byte count `n` through the pointer
it was given, `CompressedSize` afterwards is the `int32` reading of `n`, which
is `n` itself whenever `n < 2^31`, whatever `CompressedSize` held before. When
the SDK stored nothing, an `int32` `CompressedSize` is left as it was. -/
theorem GetAvailableVoice_size_and_code (CompressedSize : Int) (sdk : Sdk) (s : sdk.State) :
    ((USteamUser.GetAvailableVoice CompressedSize).run sdk s).calls
      = [.user (.GetAvailableVoice (toUInt32 CompressedSize))] ∧
    ((((USteamUser.GetAvailableVoice CompressedSize).run sdk s).result.1.value : Nat) : Int)
      = ((sdk.exec (.user (.GetAvailableVoice (toUInt32 CompressedSize))) s).1 :
          EVoiceResult × Option Nat).1.toInt ∧
    (((USteamUser.GetAvailableVoice CompressedSize).run sdk s).result.1.value = 0
      ↔ ((sdk.exec (.user (.GetAvailableVoice (toUInt32 CompressedSize))) s).1 :
          EVoiceResult × Option Nat).1 = EVoiceResult.k_EVoiceResultOK) ∧
    (∀ n : Nat,
      ((sdk.exec (.user (.GetAvailableVoice (toUInt32 CompressedSize))) s).1 :
          EVoiceResult × Option Nat).2 = some n →
      ((USteamUser.GetAvailableVoice CompressedSize).run sdk s).result.2 = toInt32 (n : Int) ∧
      (n < 2147483648 →
        ((USteamUser.GetAvailableVoice CompressedSize).run sdk s).result.2 = (n : Int))) ∧
    (((sdk.exec (.user (.GetAvailableVoice (toUInt32 CompressedSize))) s).1 :
          EVoiceResult × Option Nat).2 = none →
      isInt32 CompressedSize →
      ((USteamUser.GetAvailableVoice CompressedSize).run sdk s).result.2 = CompressedSize) := by
  have h1 : ((USteamUser.GetAvailableVoice CompressedSize).run sdk s).result.1
      = ESteamVoiceResult.mk (toUInt8
          ((sdk.exec (.user (.GetAvailableVoice (toUInt32 CompressedSize))) s).1 :
            EVoiceResult × Option Nat).1.toInt) := by
    simp only [USteamUser.GetAvailableVoice, Prog.run]
  have h2 : ((USteamUser.GetAvailableVoice CompressedSize).run sdk s).result.2
      = toInt32 ((((sdk.exec (.user (.GetAvailableVoice (toUInt32 CompressedSize))) s).1 :
          EVoiceResult × Option Nat).2.getD (toUInt32 CompressedSize) : Nat) : Int) := by
    simp only [USteamUser.GetAvailableVoice, Prog.run]
  have h0 : ∀ c : EVoiceResult,
      (toUInt8 c.toInt = 0 ↔ c = EVoiceResult.k_EVoiceResultOK) := by
    intro c; cases c <;> decide
  refine ⟨rfl, ?_, ?_, ?_, ?_⟩
  · rw [h1]; exact toUInt8_EVoiceResult _
  · rw [h1]; exact h0 _
  · intro n hn
    have h3 : ((USteamUser.GetAvailableVoice CompressedSize).run sdk s).result.2
        = toInt32 ((n : Nat) : Int) := by
      rw [h2, hn]
      simp only [Option.getD_some]
    refine ⟨h3, fun hlt => ?_⟩
    have hsize : toInt32 ((n : Nat) : Int) = ((n : Nat) : Int) := by
      unfold toInt32
      split_ifs <;> omega
    exact h3.trans hsize
  · intro hnone hC
    rw [h2, hnone]
    simp only [Option.getD_none]
    exact toInt32_toUInt32 CompressedSize hC

/-- C10, instantiated at the sample SDK: in its initial state it answers
`k_EVoiceResultOK` and stores 1024 (with `CompressedSize` holding -1 before); in
its next state it answers `k_EVoiceResultNotRecording` and stores nothing, and
the wrapper returns the number 2 and leaves `CompressedSize = 77`. -/
theorem GetAvailableVoice_size_and_code_witness :
    ((((USteamUser.GetAvailableVoice (-1)).run sampleSdk (0 : Nat)).result.1.value : Nat) : Int)
      = EVoiceResult.k_EVoiceResultOK.toInt ∧
    ((USteamUser.GetAvailableVoice (-1)).run sampleSdk (0 : Nat)).result.2
      = ((1024 : Nat) : Int) ∧
    ((((USteamUser.GetAvailableVoice 77).run sampleSdk (1 : Nat)).result.1.value : Nat) : Int)
      = EVoiceResult.k_EVoiceResultNotRecording.toInt ∧
    ((USteamUser.GetAvailableVoice 77).run sampleSdk (1 : Nat)).result.1.value ≠ 0 ∧
    ((USteamUser.GetAvailableVoice 77).run sampleSdk (1 : Nat)).result.2 = 77 :=
  ⟨(GetAvailableVoice_size_and_code (-1) sampleSdk (0 : Nat)).2.1,
    ((GetAvailableVoice_size_and_code (-1) sampleSdk (0 : Nat)).2.2.2.1 1024 rfl).2
      (by norm_num),
    (GetAvailableVoice_size_and_code 77 sampleSdk (1 : Nat)).2.1,
    fun h => by
      have := (GetAvailableVoice_size_and_code 77 sampleSdk (1 : Nat)).2.2.1.mp h
      exact absurd this (by decide),
    (GetAvailableVoice_size_and_code 77 sampleSdk (1 : Nat)).2.2.2.2 rfl (by decide)⟩

/-- C11: when the SDK's `GetVoiceOptimalSampleRate` answers the rate `r` with
`r < 2^31` (so in particular for every rate from 11025 to 48000),
`USteamUser::GetVoiceOptimalSampleRate` makes that one SDK call and returns
`r`, a non-negative `int32`. -/
theorem GetVoiceOptimalSampleRate_returns_sdk_rate (sdk : Sdk) (s : sdk.State) (r : Nat)
    (hr : r < 2147483648)
    (hsdk : (sdk.exec (.user .GetVoiceOptimalSampleRate) s).1 = r) :
    (USteamUser.GetVoiceOptimalSampleRate.run sdk s).calls
      = [.user .GetVoiceOptimalSampleRate] ∧
    (USteamUser.GetVoiceOptimalSampleRate.run sdk s).result = (r : Int) ∧
    0 ≤ (USteamUser.GetVoiceOptimalSampleRate.run sdk s).result ∧
    isInt32 (USteamUser.GetVoiceOptimalSampleRate.run sdk s).result := by
  have h1 : (USteamUser.GetVoiceOptimalSampleRate.run sdk s).result
      = toInt32 ((r : Nat) : Int) := by
    simp only [USteamUser.GetVoiceOptimalSampleRate, Prog.run, hsdk]
  have h2 : toInt32 ((r : Nat) : Int) = ((r : Nat) : Int) := by
    unfold toInt32
    split_ifs <;> omega
  rw [h1, h2]
  refine ⟨rfl, rfl, ?_, ?_⟩
  · omega
  · unfold isInt32; omega

/-- C11, instantiated at the sample SDK, which answers 48000. -/
theorem GetVoiceOptimalSampleRate_returns_sdk_rate_witness :
    (USteamUser.GetVoiceOptimalSampleRate.run sampleSdk (0 : Nat)).result = ((48000 : Nat) : Int) :=
  (GetVoiceOptimalSampleRate_returns_sdk_rate sampleSdk (0 : Nat) 48000 (by norm_num) rfl).2.1

/-- C13: against the SDK modelled from the documentation of
`WasRestartRequested`, from every SDK state, one call of
`USteamGameServer::WasRestartRequested` returns the restart-requested flag, and
a second call made in the state the first one left (no alert arriving in
between) returns false, also when the first returned true; each call makes the
one SDK call `WasRestartRequested`. If an alert does arrive in between, the
second call returns true. The wrapper keeps no state of its own: against any SDK
whose `WasRestartRequested` answers false right after it has been called, the
wrapper's second call returns false. -/
theorem WasRestartRequested_reverts_to_false (restartRequested : Bool) :
    (USteamGameServer.WasRestartRequested.run restartFlagSdk restartRequested).result
      = restartRequested ∧
    (USteamGameServer.WasRestartRequested.run restartFlagSdk
      (USteamGameServer.WasRestartRequested.run restartFlagSdk restartRequested).state).result
      = false ∧
    (USteamGameServer.WasRestartRequested.run restartFlagSdk
      (USteamGameServer.WasRestartRequested.run restartFlagSdk true).state).result = false ∧
    (USteamGameServer.WasRestartRequested.run restartFlagSdk
      (USteamGameServer.WasRestartRequested.run restartFlagSdk restartRequested).state).calls
      = [.gameServer .WasRestartRequested] ∧
    (USteamGameServer.WasRestartRequested.run restartFlagSdk
      (restartFlagSdk.outOfDateAlert
        (USteamGameServer.WasRestartRequested.run restartFlagSdk restartRequested).state)).result
      = true ∧
    (∀ (sdk : Sdk),
      (∀ s : sdk.State, (sdk.exec (.gameServer .WasRestartRequested)
        (sdk.exec (.gameServer .WasRestartRequested) s).2).1 = false) →
      ∀ s : sdk.State, (USteamGameServer.WasRestartRequested.run sdk
        (USteamGameServer.WasRestartRequested.run sdk s).state).result = false) :=
  ⟨rfl, rfl, rfl, rfl, rfl, fun _ h s => h s⟩

/-- C14: `USteamGameServer::SetSpectatorPort` does not clamp. For every
`SpectatorPort` the SDK receives `SpectatorPort` modulo 65536, because
`FMath::Clamp<uint16>` converts its argument to `uint16` before it compares.
At `SpectatorPort = -1` the SDK receives 65535 where clamping gives 0, and at
`SpectatorPort = 65536` it receives 0 where clamping gives 65535. -/
theorem SetSpectatorPort_wraps_out_of_range_port :
    (∀ (SpectatorPort : Int) (sdk : Sdk) (s : sdk.State),
      ((USteamGameServer.SetSpectatorPort SpectatorPort).run sdk s).calls
        = [.gameServer (.SetSpectatorPort (SpectatorPort % 65536).toNat)]) ∧
    ((USteamGameServer.SetSpectatorPort (-1)).run sampleSdk (0 : Nat)).calls
      = [.gameServer (.SetSpectatorPort 65535)] ∧
    clampToPortRange (-1) = 0 ∧
    ((USteamGameServer.SetSpectatorPort 65536).run sampleSdk (0 : Nat)).calls
      = [.gameServer (.SetSpectatorPort 0)] ∧
    clampToPortRange 65536 = 65535 := by
  have h : ∀ p : Int, FMath.Clamp_uint16 p 0 65535 = (p % 65536).toNat := by
    intro p
    unfold FMath.Clamp_uint16 FMath.Clamp toUInt16
    split_ifs <;> omega
  refine ⟨?_, ?_, by decide, ?_, by decide⟩
  · intro p sdk s
    simp only [USteamGameServer.SetSpectatorPort, Prog.run, h]
  · simp only [USteamGameServer.SetSpectatorPort, Prog.run, h]
    rfl
  · simp only [USteamGameServer.SetSpectatorPort, Prog.run, h]
    rfl

/-- C16: for every `FHAuthTicket` `h`, `USteamUser::CancelAuthTicket` (which
passes `h`, converted implicitly) and `USteamGameServer::CancelAuthTicket`
(which passes `h.Value`) hand their SDK entry points the same handle value,
`h.Value`. -/
theorem CancelAuthTicket_marshals_handle_alike (h : FHAuthTicket) (sdk : Sdk) (s : sdk.State) :
    ∃ (a b : Nat),
      ((USteamUser.CancelAuthTicket h).run sdk s).calls = [.user (.CancelAuthTicket a)] ∧
      ((USteamGameServer.CancelAuthTicket h).run sdk s).calls
        = [.gameServer (.CancelAuthTicket b)] ∧
      a = b ∧ b = h.Value :=
  ⟨h.toHAuthTicket, h.Value, rfl, rfl, rfl, rfl⟩

/-- C17: for every unsigned 32-bit address `a` and every 16-bit port `q` there
are `int32` values `IPServer` and `PortServer` with which
`USteamUser::TerminateGameConnection` makes the SDK call
`TerminateGameConnection(a, q)`, and every `int32` `IPServer` that makes the
SDK receive the address `a` is that same value. -/
theorem TerminateGameConnection_reaches_every_endpoint (a q : Nat)
    (ha : a < 4294967296) (hq : q < 65536) (sdk : Sdk) (s : sdk.State) :
    ∃ (IPServer PortServer : Int),
      isInt32 IPServer ∧ isInt32 PortServer ∧
      ((USteamUser.TerminateGameConnection IPServer PortServer).run sdk s).calls
        = [.user (.TerminateGameConnection a q)] ∧
      ∀ (IPServer2 PortServer2 : Int) (q2 : Nat), isInt32 IPServer2 →
        ((USteamUser.TerminateGameConnection IPServer2 PortServer2).run sdk s).calls
          = [.user (.TerminateGameConnection a q2)] →
        IPServer2 = IPServer := by
  have hq2 : toUInt16 (q : Int) = q := by unfold toUInt16; omega
  have hqr : isInt32 (q : Int) := by unfold isInt32; omega
  refine ⟨toInt32 (a : Int), (q : Int), (toUInt32_toInt32 a ha).2, hqr, ?_, ?_⟩
  · simp only [USteamUser.TerminateGameConnection, Prog.run, (toUInt32_toInt32 a ha).1, hq2]
  · intro IP2 P2 q2 hIP2 hcalls
    simp only [USteamUser.TerminateGameConnection, Prog.run, List.cons.injEq, SdkCall.user.injEq,
      ISteamUser.TerminateGameConnection.injEq, and_true] at hcalls
    rw [← hcalls.1]
    exact (toInt32_toUInt32 IP2 hIP2).symm

/-- C17, instantiated at the address 192.168.0.1 (3232235521, above 2^31) and the
port 27015: the `int32` that reaches the address is -1062731775. -/
theorem TerminateGameConnection_reaches_every_endpoint_witness :
    ∃ (IPServer PortServer : Int),
      isInt32 IPServer ∧ isInt32 PortServer ∧
      ((USteamUser.TerminateGameConnection IPServer PortServer).run sampleSdk (0 : Nat)).calls
        = [.user (.TerminateGameConnection 3232235521 27015)] ∧
      ∀ (IPServer2 PortServer2 : Int) (q2 : Nat), isInt32 IPServer2 →
        ((USteamUser.TerminateGameConnection IPServer2 PortServer2).run sampleSdk (0 : Nat)).calls
          = [.user (.TerminateGameConnection 3232235521 q2)] →
        IPServer2 = IPServer :=
  TerminateGameConnection_reaches_every_endpoint 3232235521 27015 (by norm_num) (by norm_num)
    sampleSdk (0 : Nat)

/-- C18: `USteamUser::m_buffer` is 8192, which is at least the 8 kilobytes that
the documentation of `GetVoice` recommends (8192 bytes with a kilobyte of 1024
bytes, 8000 with one of 1000). -/
theorem m_buffer_meets_recommended_size :
    USteamUser.m_buffer = 8192 ∧
    USteamUser.GetVoice_recommendedBufferBytes ≤ USteamUser.m_buffer ∧
    (8 * 1000 : Int) ≤ USteamUser.m_buffer := by
  unfold USteamUser.m_buffer USteamUser.GetVoice_recommendedBufferBytes
  omega

/-- C15: `USteamGameServer` declares exactly 7 delegate properties and 7 callback
declarations, `USteamUser` exactly 13 and 13. In each class every callback
declaration, for an SDK struct `X_t`, has exactly one delegate property whose
display name is "On" followed by `X`, and every delegate property has exactly
one callback declaration, so none is left without a callback and none is shared
by two. -/
theorem delegates_and_callbacks_correspond_one_to_one :
    USteamGameServer.delegateProperties.length = 7 ∧
    USteamGameServer.callbackDeclarations.length = 7 ∧
    USteamUser.delegateProperties.length = 13 ∧
    USteamUser.callbackDeclarations.length = 13 ∧
    (∀ c ∈ USteamGameServer.callbackDeclarations,
      (USteamGameServer.delegateProperties.filter (fun d => d.isFor c)).length = 1) ∧
    (∀ d ∈ USteamGameServer.delegateProperties,
      (USteamGameServer.callbackDeclarations.filter (fun c => d.isFor c)).length = 1) ∧
    (∀ c ∈ USteamUser.callbackDeclarations,
      (USteamUser.delegateProperties.filter (fun d => d.isFor c)).length = 1) ∧
    (∀ d ∈ USteamUser.delegateProperties,
      (USteamUser.callbackDeclarations.filter (fun c => d.isFor c)).length = 1) ∧
    (USteamGameServer.callbackDeclarations.map (fun c => c.callback_type)).Nodup ∧
    (USteamUser.callbackDeclarations.map (fun c => c.callback_type)).Nodup ∧
    (USteamGameServer.delegateProperties.map (fun d => d.member)).Nodup ∧
    (USteamUser.delegateProperties.map (fun d => d.member)).Nodup := by
  refine ⟨rfl, rfl, rfl, rfl, ?_, ?_, ?_, ?_, ?_, ?_, ?_, ?_⟩ <;> decide

/-- C12: the payloads of the 20 delegates set against the SDK callback structs.
Every delegate republishes exactly one struct and has as many fields as it, in
all 44 fields. At every position but one the delegate parameter is named after
the struct member at that position. The exception is the third field of
`FOnComputeNewPlayerCompatibilityResultDelegate`, declared
`PlayersThatDoesntLikeCandidate` where the struct has
`m_cPlayersThatCandidateDoesntLike`: the value of that member is republished
under a name that no member of the struct has. -/
theorem delegate_payload_fields_against_callback_structs :
    (USteamGameServer.delegateDeclarations ++ USteamUser.delegateDeclarations).length = 20 ∧
    ((USteamGameServer.delegateDeclarations ++ USteamUser.delegateDeclarations).map
      (fun d => d.params.length)).sum = 44 ∧
    (∀ d ∈ USteamGameServer.delegateDeclarations ++ USteamUser.delegateDeclarations,
      ∃ c ∈ sdkCallbackStructs, d.republishes c = true ∧
        (sdkCallbackStructs.filter (fun c2 => d.republishes c2)).length = 1 ∧
        d.params.length = c.fields.length) ∧
    misnamedPayloadFields
        (USteamGameServer.delegateDeclarations ++ USteamUser.delegateDeclarations)
        sdkCallbackStructs
      = [("FOnComputeNewPlayerCompatibilityResultDelegate", 2,
          "PlayersThatDoesntLikeCandidate", "m_cPlayersThatCandidateDoesntLike")] ∧
    (∀ d ∈ USteamGameServer.delegateDeclarations,
      d.name = "FOnComputeNewPlayerCompatibilityResultDelegate" →
      d.republish [1, 2, 3, 4, 76561197960287930]
        = [("Result", 1), ("PlayersThatDontLikeCandidate", 2),
            ("PlayersThatDoesntLikeCandidate", 3), ("ClanPlayersThatDontLikeCandidate", 4),
            ("SteamIDCandidate", 76561197960287930)]) ∧
    (∀ c ∈ sdkCallbackStructs, c.name = "ComputeNewPlayerCompatibilityResult_t" →
      ∀ f ∈ c.fields, namedAfter "PlayersThatDoesntLikeCandidate" f.name = false) := by
  refine ⟨rfl, rfl, ?_, ?_, ?_, ?_⟩ <;> decide

end SteamBridge
